import Mathlib

/-!
Verification development for the cpuwu emulator core (src/lib.rs).

The Rust core is shallowly embedded: machine integers (`u32`, `u64`, `u8`)
become `Nat` with explicit `% 2^32` / `% 256` where the Rust code wraps or
casts, the `Address` trait object is modelled as a total byte RAM
`mem : Nat -> Nat` (an admissible implementation of the trait: `read` returns
a byte, so reads go through `% 256`), fallible operations
(`Result<_, InvalidMemoryAccess>` methods on `&mut self`) become the `Res`
type carrying the partially updated machine state, and a Rust panic
(`unreachable!`, division by zero) becomes the `Res.crash` constructor.
Host `f32` arithmetic is kept abstract in a `FloatModel` record of functions
on the 32-bit payloads of the float registers; every theorem below that runs
the decoder quantifies over the model, and none of the verified claims
depend on float semantics.
-/

/-- Permission bit for reads, `READ = 0b100` in the source. -/
def READ : Nat := 4

/-- Permission bit for writes, `WRITE = 0b010` in the source. -/
def WRITE : Nat := 2

/-- Permission bit for instruction fetch, `EXEC = 0b001` in the source. -/
def EXEC : Nat := 1

/-- Bit index of the interrupt-enable flag (`F_INTERRUPT_ENABLE = 3`). -/
def F_INTERRUPT_ENABLE : Nat := 3

/-- Bit index of the zero flag. -/
def F_ZERO : Nat := 4

/-- Bit index of the overflow flag. -/
def F_OVERFLOW : Nat := 5

/-- Bit index of the carry flag. -/
def F_CARRY : Nat := 6

/-- Bit index of the parity flag. -/
def F_PARITY : Nat := 7

/-- Bit index of the negative flag. -/
def F_NEGATIVE : Nat := 8

/-- Bit index of the not-a-number flag. -/
def F_NAN : Nat := 9

/-- Bit index of the infinity flag. -/
def F_INFINITE : Nat := 10

/-- Bit index of the user-ring flag. -/
def F_USER_RING : Nat := 11

/-- Bit index of the memory-map-enable flag. -/
def F_MEMMAP_ENABLE : Nat := 12

/-- Register index of the last-interrupt register (`R_INT = 12`). -/
def R_INT : Fin 16 := 12

/-- Register index of the program counter (`R_PC = 13`). -/
def R_PC : Fin 16 := 13

/-- Register index of the stack base pointer (`R_BASE = 14`). -/
def R_BASE : Fin 16 := 14

/-- Register index of the stack pointer (`R_SP = 15`). -/
def R_SP : Fin 16 := 15

/-- The fault kinds of the emulator, `enum InvalidMemoryAccess` in the
source.  `invalidPermissions` carries the granted and the requested
permission nibbles. -/
inductive Fault where
  | usedFreePage : Fault
  | invalidPermissions : Nat → Nat → Fault
  | unprivilegedOpcode : Fault
deriving DecidableEq, Repr

/-- Abstract model of the host single-precision float semantics used by the
float instructions.  All fields are functions on the raw 32-bit payloads
stored in the float register file: the four arithmetic fields model
`f32` `+ - * /` on bit patterns, `toInt` models `(f as i32) as u32`,
`ofInt` models `(x as i32) as f32` (returning the payload of the result),
and the four predicates model `== 0.0`, `is_sign_negative`, `is_nan` and
`is_infinite`.  No claim in this development depends on the concrete
values of these fields. -/
structure FloatModel where
  fadd : Nat → Nat → Nat
  fsub : Nat → Nat → Nat
  fmul : Nat → Nat → Nat
  fdiv : Nat → Nat → Nat
  toInt : Nat → Nat
  ofInt : Nat → Nat
  isZero : Nat → Bool
  isNeg : Nat → Bool
  isNan : Nat → Bool
  isInf : Nat → Bool

/-- The machine state of `struct Cpu<T>` in the source, with the generic
`Address` collaborator instantiated by a total byte RAM `mem`.  Integer
registers, the flag word, `memmap` and `system_sp` are 32-bit values
(`Cpu.Wf` states the bounds), `interrupt_mask` is 8-bit, the float
registers hold raw `f32` payloads, and the interrupt queue is the
`VecDeque<u32>` with the front at the head of the list. -/
structure Cpu where
  xs : Fin 16 → Nat
  fs : Fin 16 → Nat
  flags : Nat
  interrupt_mask : Nat
  memmap : Nat
  system_sp : Nat
  interrupt_queue : List Nat
  mem : Nat → Nat

/-- Well-formedness: all 32-bit state components are in range.  This is the
representation invariant carried by the Rust `u32` types. -/
def Cpu.Wf (c : Cpu) : Prop :=
  (∀ i : Fin 16, c.xs i < 4294967296) ∧ c.flags < 4294967296 ∧
    c.memmap < 4294967296 ∧ c.system_sp < 4294967296

instance (c : Cpu) : Decidable c.Wf := by
  unfold Cpu.Wf
  infer_instance

/-- Outcome of a fallible emulator operation: `ok` and `fault` carry the
(partially) updated machine state, mirroring `Result<A, InvalidMemoryAccess>`
on `&mut self`; `crash` models a host-level Rust panic (an `unreachable!`
arm or an integer division by zero), which aborts the emulator rather than
produce a machine state. -/
inductive Res (α : Type) where
  | ok : α → Cpu → Res α
  | fault : Fault → Cpu → Res α
  | crash : Cpu → Res α

/-- Sequencing of fallible operations: the `?` operator of the source. -/
def Res.bind {α β : Type} : Res α → (α → Cpu → Res β) → Res β
  | .ok a c, f => f a c
  | .fault e c, _ => .fault e c
  | .crash c, _ => .crash c

/-- Byte read on the memory bus (`Address::read` of the total-RAM
collaborator; the trait returns `u8`). -/
def Cpu.busRead (c : Cpu) (a : Nat) : Nat :=
  c.mem a % 256

/-- Byte write on the memory bus (`Address::write` of the total-RAM
collaborator). -/
def Cpu.busWrite (c : Cpu) (a d : Nat) : Cpu :=
  { c with mem := fun x => if x = a then d else c.mem x }

/-- Flag test, `fn get_flag`: `self.flags & (1 << flag) != 0`. -/
def Cpu.get_flag (c : Cpu) (flag : Nat) : Bool :=
  c.flags &&& (1 <<< flag) != 0

/-- Flag assignment, `fn set_flag`: `self.flags |= (val as u32) << flag`. -/
def Cpu.set_flag (c : Cpu) (flag : Nat) (val : Bool) : Cpu :=
  { c with flags := c.flags ||| ((if val then 1 else 0) <<< flag) }

/-- The `clear_flags!` macro: `self.flags &= !mask`, with the `u32`
complement written as xor with `0xffffffff`. -/
def Cpu.clear_flags (c : Cpu) (mask : Nat) : Cpu :=
  { c with flags := c.flags &&& (0xffffffff ^^^ mask) }

/-- `fn set_carry`. -/
def Cpu.set_carry (c : Cpu) (val : Bool) : Cpu :=
  (c.clear_flags (1 <<< F_CARRY)).set_flag F_CARRY val

/-- `fn set_user_ring`: faults with `UnprivilegedOpcode` when the user-ring
flag is already set. -/
def Cpu.set_user_ring (c : Cpu) (val : Bool) : Res Unit :=
  if !(c.get_flag F_USER_RING) then
    .ok () ((c.clear_flags (1 <<< F_USER_RING)).set_flag F_USER_RING val)
  else
    .fault .unprivilegedOpcode c

/-- `fn set_memmap_enable`: privileged toggle of the memory map. -/
def Cpu.set_memmap_enable (c : Cpu) (val : Bool) : Res Unit :=
  if !(c.get_flag F_USER_RING) then
    .ok () ((c.clear_flags (1 <<< F_MEMMAP_ENABLE)).set_flag F_MEMMAP_ENABLE val)
  else
    .fault .unprivilegedOpcode c

/-- `fn set_interrupt_enable`: privileged toggle of interrupt delivery. -/
def Cpu.set_interrupt_enable (c : Cpu) (val : Bool) : Res Unit :=
  if !(c.get_flag F_USER_RING) then
    .ok () ((c.clear_flags (1 <<< F_INTERRUPT_ENABLE)).set_flag F_INTERRUPT_ENABLE val)
  else
    .fault .unprivilegedOpcode c

/-- `fn check_memory`, the MMU translator.  With `MEMMAP_ENABLE` clear the
identity map applies.  Otherwise the level-2 table base is read as four
little-endian bytes at byte offset `addr >> 24` from `memmap` (a zero base
faults with `UsedFreePage`), the leaf word is read as four little-endian
bytes at byte offset `(addr >> 16) & 0xff` from that base, the low 16
address bits are added to the whole leaf word with 32-bit wrap, and the
permission nibble and the physical address are extracted from that sum.
All address arithmetic wraps at 2^32 as the `u32` additions do. -/
def Cpu.check_memory (c : Cpu) (addr : Nat) (permissions : Nat) : Except Fault Nat :=
  if c.flags &&& (1 <<< F_MEMMAP_ENABLE) ≠ 0 then
    let t := c.memmap
    let table_addr :=
      c.busRead ((t + (addr >>> 24)) % 4294967296)
        ||| c.busRead ((t + (addr >>> 24) + 1) % 4294967296) <<< 8
        ||| c.busRead ((t + (addr >>> 24) + 2) % 4294967296) <<< 16
        ||| c.busRead ((t + (addr >>> 24) + 3) % 4294967296) <<< 24
    if table_addr = 0 then
      .error .usedFreePage
    else
      let addr2 :=
        ((c.busRead ((table_addr + ((addr >>> 16) &&& 0xff)) % 4294967296)
            ||| c.busRead ((table_addr + ((addr >>> 16) &&& 0xff) + 1) % 4294967296) <<< 8
            ||| c.busRead ((table_addr + ((addr >>> 16) &&& 0xff) + 2) % 4294967296) <<< 16
            ||| c.busRead ((table_addr + ((addr >>> 16) &&& 0xff) + 3) % 4294967296) <<< 24)
          + (addr &&& 0xffff)) % 4294967296
      let p := (addr2 &&& 0xf0000000) >>> 28
      let addr3 := addr2 &&& 0x0fffffff
      if p &&& 0x08 = 0 then
        .error .usedFreePage
      else if p &&& permissions ≠ permissions then
        .error (.invalidPermissions p permissions)
      else
        .ok addr3
  else
    .ok addr

/-- `fn exec`: translate the PC with execute permission, read one byte,
post-increment the PC (32-bit wrap). -/
def Cpu.exec (c : Cpu) : Res Nat :=
  match c.check_memory (c.xs R_PC) EXEC with
  | .error e => .fault e c
  | .ok addr =>
      .ok (c.busRead addr)
        { c with xs := Function.update c.xs R_PC ((c.xs R_PC + 1) % 4294967296) }

/-- `fn read`: translated data read. -/
def Cpu.read (c : Cpu) (addr : Nat) : Res Nat :=
  match c.check_memory addr READ with
  | .error e => .fault e c
  | .ok a => .ok (c.busRead a) c

/-- `fn write`: translated data write. -/
def Cpu.write (c : Cpu) (addr : Nat) (data : Nat) : Res Unit :=
  match c.check_memory addr WRITE with
  | .error e => .fault e c
  | .ok a => .ok () (c.busWrite a data)

/-- The little-endian 32-bit immediate fetch
`exec()? | exec()? << 8 | exec()? << 16 | exec()? << 24`
that the source inlines in every instruction taking 32-bit data. -/
def Cpu.fetch32 (c : Cpu) : Res Nat :=
  c.exec.bind fun b0 c =>
  c.exec.bind fun b1 c =>
  c.exec.bind fun b2 c =>
  c.exec.bind fun b3 c =>
  .ok (b0 ||| b1 <<< 8 ||| b2 <<< 16 ||| b3 <<< 24) c

/-- `fn call`: fetch a 32-bit target, push BP then PC (each high byte first,
decrementing SP after every byte with 32-bit wrap), then set BP to the
post-push SP and jump. -/
def Cpu.call (c : Cpu) : Res Unit :=
  c.fetch32.bind fun addr c =>
  let data := c.xs R_BASE
  (c.write (c.xs R_SP) ((data >>> 24) % 256)).bind fun _ c =>
  let c := { c with xs := Function.update c.xs R_SP ((c.xs R_SP + 4294967295) % 4294967296) }
  (c.write (c.xs R_SP) ((data >>> 16) % 256)).bind fun _ c =>
  let c := { c with xs := Function.update c.xs R_SP ((c.xs R_SP + 4294967295) % 4294967296) }
  (c.write (c.xs R_SP) ((data >>> 8) % 256)).bind fun _ c =>
  let c := { c with xs := Function.update c.xs R_SP ((c.xs R_SP + 4294967295) % 4294967296) }
  (c.write (c.xs R_SP) (data % 256)).bind fun _ c =>
  let c := { c with xs := Function.update c.xs R_SP ((c.xs R_SP + 4294967295) % 4294967296) }
  let data := c.xs R_PC
  (c.write (c.xs R_SP) ((data >>> 24) % 256)).bind fun _ c =>
  let c := { c with xs := Function.update c.xs R_SP ((c.xs R_SP + 4294967295) % 4294967296) }
  (c.write (c.xs R_SP) ((data >>> 16) % 256)).bind fun _ c =>
  let c := { c with xs := Function.update c.xs R_SP ((c.xs R_SP + 4294967295) % 4294967296) }
  (c.write (c.xs R_SP) ((data >>> 8) % 256)).bind fun _ c =>
  let c := { c with xs := Function.update c.xs R_SP ((c.xs R_SP + 4294967295) % 4294967296) }
  (c.write (c.xs R_SP) (data % 256)).bind fun _ c =>
  let c := { c with xs := Function.update c.xs R_SP ((c.xs R_SP + 4294967295) % 4294967296) }
  let c := { c with xs := Function.update c.xs R_BASE (c.xs R_SP) }
  .ok () { c with xs := Function.update c.xs R_PC addr }

/-- `fn ret`: zero the PC, read its four bytes back at ascending offsets
from BP (incrementing BP before each byte), read the saved BP the same way,
then set SP to the incremented BP and BP to the saved value. -/
def Cpu.ret (c : Cpu) : Res Unit :=
  let c := { c with xs := Function.update c.xs R_PC 0 }
  let c := { c with xs := Function.update c.xs R_BASE ((c.xs R_BASE + 1) % 4294967296) }
  (c.read (c.xs R_BASE)).bind fun b c =>
  let c := { c with xs := Function.update c.xs R_PC (c.xs R_PC ||| b) }
  let c := { c with xs := Function.update c.xs R_BASE ((c.xs R_BASE + 1) % 4294967296) }
  (c.read (c.xs R_BASE)).bind fun b c =>
  let c := { c with xs := Function.update c.xs R_PC (c.xs R_PC ||| b <<< 8) }
  let c := { c with xs := Function.update c.xs R_BASE ((c.xs R_BASE + 1) % 4294967296) }
  (c.read (c.xs R_BASE)).bind fun b c =>
  let c := { c with xs := Function.update c.xs R_PC (c.xs R_PC ||| b <<< 16) }
  let c := { c with xs := Function.update c.xs R_BASE ((c.xs R_BASE + 1) % 4294967296) }
  (c.read (c.xs R_BASE)).bind fun b c =>
  let c := { c with xs := Function.update c.xs R_PC (c.xs R_PC ||| b <<< 24) }
  let c := { c with xs := Function.update c.xs R_BASE ((c.xs R_BASE + 1) % 4294967296) }
  (c.read (c.xs R_BASE)).bind fun b c =>
  let d0 := b
  let c := { c with xs := Function.update c.xs R_BASE ((c.xs R_BASE + 1) % 4294967296) }
  (c.read (c.xs R_BASE)).bind fun b c =>
  let d1 := d0 ||| b <<< 8
  let c := { c with xs := Function.update c.xs R_BASE ((c.xs R_BASE + 1) % 4294967296) }
  (c.read (c.xs R_BASE)).bind fun b c =>
  let d2 := d1 ||| b <<< 16
  let c := { c with xs := Function.update c.xs R_BASE ((c.xs R_BASE + 1) % 4294967296) }
  (c.read (c.xs R_BASE)).bind fun b c =>
  let data := d2 ||| b <<< 24
  let c := { c with xs := Function.update c.xs R_SP (c.xs R_BASE) }
  .ok () { c with xs := Function.update c.xs R_BASE data }

/-- `fn branch_true`: fetch the 32-bit target first, then jump if the flag
is set. -/
def Cpu.branch_true (c : Cpu) (flag : Nat) : Res Unit :=
  c.fetch32.bind fun addr c =>
  if c.flags &&& (1 <<< flag) ≠ 0 then
    .ok () { c with xs := Function.update c.xs R_PC addr }
  else
    .ok () c

/-- `fn branch_false`: fetch the 32-bit target first, then jump if the flag
is clear. -/
def Cpu.branch_false (c : Cpu) (flag : Nat) : Res Unit :=
  c.fetch32.bind fun addr c =>
  if c.flags &&& (1 <<< flag) = 0 then
    .ok () { c with xs := Function.update c.xs R_PC addr }
  else
    .ok () c

/-- `fn update_flags_int`: clear then set ZERO, NEGATIVE and PARITY from an
integer result. -/
def Cpu.update_flags_int (c : Cpu) (x : Nat) : Cpu :=
  (((c.clear_flags ((1 <<< F_ZERO) ||| (1 <<< F_NEGATIVE) ||| (1 <<< F_PARITY))).set_flag
      F_ZERO (x == 0)).set_flag
    F_NEGATIVE (x &&& 0x80000000 != 0)).set_flag
    F_PARITY (x &&& 1 != 0)

/-- `fn update_flags_float`: clear then set ZERO, NEGATIVE, NAN and
INFINITE from a float result (predicates supplied by the float model). -/
def Cpu.update_flags_float (fm : FloatModel) (c : Cpu) (x : Nat) : Cpu :=
  ((((c.clear_flags
        ((1 <<< F_ZERO) ||| (1 <<< F_NEGATIVE) ||| (1 <<< F_NAN) ||| (1 <<< F_INFINITE))).set_flag
      F_ZERO (fm.isZero x)).set_flag
    F_NEGATIVE (fm.isNeg x)).set_flag
    F_NAN (fm.isNan x)).set_flag
    F_INFINITE (fm.isInf x)

/-- `fn load_lit_int`. -/
def Cpu.load_lit_int (c : Cpu) (x0 : Fin 16) : Res Unit :=
  c.fetch32.bind fun data c =>
  let c := { c with xs := Function.update c.xs x0 data }
  .ok () (c.update_flags_int data)

/-- `fn load_lit_float` (the payload is stored unchanged;
`f32::from_bits` is the identity on payloads). -/
def Cpu.load_lit_float (fm : FloatModel) (c : Cpu) (f0 : Fin 16) : Res Unit :=
  c.fetch32.bind fun data c =>
  let c := { c with fs := Function.update c.fs f0 data }
  .ok () (c.update_flags_float fm data)

/-- `fn load_int`: fetch an address, then read four bytes little-endian. -/
def Cpu.load_int (c : Cpu) (x0 : Fin 16) : Res Unit :=
  c.fetch32.bind fun addr c =>
  (c.read addr).bind fun b0 c =>
  (c.read ((addr + 1) % 4294967296)).bind fun b1 c =>
  (c.read ((addr + 2) % 4294967296)).bind fun b2 c =>
  (c.read ((addr + 3) % 4294967296)).bind fun b3 c =>
  let data := b0 ||| b1 <<< 8 ||| b2 <<< 16 ||| b3 <<< 24
  let c := { c with xs := Function.update c.xs x0 data }
  .ok () (c.update_flags_int data)

/-- `fn load_float`. -/
def Cpu.load_float (fm : FloatModel) (c : Cpu) (f0 : Fin 16) : Res Unit :=
  c.fetch32.bind fun addr c =>
  (c.read addr).bind fun b0 c =>
  (c.read ((addr + 1) % 4294967296)).bind fun b1 c =>
  (c.read ((addr + 2) % 4294967296)).bind fun b2 c =>
  (c.read ((addr + 3) % 4294967296)).bind fun b3 c =>
  let data := b0 ||| b1 <<< 8 ||| b2 <<< 16 ||| b3 <<< 24
  let c := { c with fs := Function.update c.fs f0 data }
  .ok () (c.update_flags_float fm data)

/-- `fn iadd`: add-with-carry in a 64-bit intermediate, store the low 32
bits, and derive ZERO, NEGATIVE, CARRY, OVERFLOW and PARITY (all cleared
first).  The overflow condition reads the operand registers before the
destination is overwritten, as the source does. -/
def Cpu.iadd (c : Cpu) (x0 x1 : Fin 16) : Cpu :=
  let res := c.xs x0 + c.xs x1 + (if c.get_flag F_CARRY then 1 else 0)
  let c1 := c.clear_flags
    ((1 <<< F_ZERO) ||| (1 <<< F_OVERFLOW) ||| (1 <<< F_CARRY) |||
      (1 <<< F_NEGATIVE) ||| (1 <<< F_PARITY))
  let c2 := c1.set_flag F_ZERO (res % 4294967296 == 0)
  let c3 := c2.set_flag F_NEGATIVE (res &&& 0x80000000 != 0)
  let c4 := c3.set_flag F_CARRY (res &&& 0x100000000 != 0)
  let c5 := c4.set_flag F_OVERFLOW
    ((c.xs x0 &&& 0x80000000 == c.xs x1 &&& 0x80000000) &&
      (c.xs x0 &&& 0x80000000 != res % 4294967296 &&& 0x80000000))
  let c6 := c5.set_flag F_PARITY (res &&& 1 != 0)
  { c6 with xs := Function.update c6.xs x0 (res % 4294967296) }

/-- `fn isub`: complement the operand register, add with carry, complement
it back. -/
def Cpu.isub (c : Cpu) (x0 x1 : Fin 16) : Cpu :=
  let c := { c with xs := Function.update c.xs x1 (0xffffffff ^^^ c.xs x1) }
  let c := c.iadd x0 x1
  { c with xs := Function.update c.xs x1 (0xffffffff ^^^ c.xs x1) }

/-- `fn imul`: wrapping 32-bit multiply, then ZERO/NEGATIVE/PARITY. -/
def Cpu.imul (c : Cpu) (x0 x1 : Fin 16) : Cpu :=
  let c := { c with xs := Function.update c.xs x0 ((c.xs x0 * c.xs x1) % 4294967296) }
  c.update_flags_int (c.xs x0)

/-- `fn idiv`: truncating 32-bit division, then ZERO/NEGATIVE/PARITY.
A zero divisor makes the Rust `/=` abort the host process, modelled by
`Res.crash`. -/
def Cpu.idiv (c : Cpu) (x0 x1 : Fin 16) : Res Unit :=
  if c.xs x1 = 0 then
    .crash c
  else
    let c := { c with xs := Function.update c.xs x0 (c.xs x0 / c.xs x1) }
    .ok () (c.update_flags_int (c.xs x0))

/-- `fn imod`: 32-bit remainder, then ZERO/NEGATIVE/PARITY.  A zero divisor
makes the Rust `%=` abort the host process, modelled by `Res.crash`. -/
def Cpu.imod (c : Cpu) (x0 x1 : Fin 16) : Res Unit :=
  if c.xs x1 = 0 then
    .crash c
  else
    let c := { c with xs := Function.update c.xs x0 (c.xs x0 % c.xs x1) }
    .ok () (c.update_flags_int (c.xs x0))

/-- `fn fadd` (float semantics from the model). -/
def Cpu.fadd (fm : FloatModel) (c : Cpu) (f0 f1 : Fin 16) : Cpu :=
  let c := { c with fs := Function.update c.fs f0 (fm.fadd (c.fs f0) (c.fs f1)) }
  c.update_flags_float fm (c.fs f0)

/-- `fn fsub` (float semantics from the model). -/
def Cpu.fsub (fm : FloatModel) (c : Cpu) (f0 f1 : Fin 16) : Cpu :=
  let c := { c with fs := Function.update c.fs f0 (fm.fsub (c.fs f0) (c.fs f1)) }
  c.update_flags_float fm (c.fs f0)

/-- `fn fmul` (float semantics from the model). -/
def Cpu.fmul (fm : FloatModel) (c : Cpu) (f0 f1 : Fin 16) : Cpu :=
  let c := { c with fs := Function.update c.fs f0 (fm.fmul (c.fs f0) (c.fs f1)) }
  c.update_flags_float fm (c.fs f0)

/-- `fn fdiv` (float semantics from the model). -/
def Cpu.fdiv (fm : FloatModel) (c : Cpu) (f0 f1 : Fin 16) : Cpu :=
  let c := { c with fs := Function.update c.fs f0 (fm.fdiv (c.fs f0) (c.fs f1)) }
  c.update_flags_float fm (c.fs f0)

/-- `fn bsl`: 64-bit left shift (zero if the amount is 32 or more), the
carry flag OR'd into bit 0 of the intermediate, flags cleared, CARRY
re-derived from bit 32 of the intermediate only when the amount is
exactly 1. -/
def Cpu.bsl (c : Cpu) (x0 x1 : Fin 16) : Cpu :=
  let res := (if c.xs x1 < 32 then c.xs x0 <<< c.xs x1 else 0) |||
    (if c.get_flag F_CARRY then 1 else 0)
  let c1 := c.clear_flags
    ((1 <<< F_ZERO) ||| (1 <<< F_CARRY) ||| (1 <<< F_NEGATIVE) ||| (1 <<< F_PARITY))
  let c2 := c1.set_flag F_ZERO (res % 4294967296 == 0)
  let c3 := c2.set_flag F_NEGATIVE (res &&& 0x80000000 != 0)
  let c4 := if c.xs x1 = 1 then c3.set_flag F_CARRY (res &&& 0x100000000 != 0) else c3
  let c5 := c4.set_flag F_PARITY (res &&& 1 != 0)
  { c5 with xs := Function.update c5.xs x0 (res % 4294967296) }

/-- `fn bsr`: 64-bit right shift (zero if the amount is 32 or more), the
carry flag OR'd into bit 0 of the intermediate, flags cleared, CARRY
re-derived from the original bit 0 of the destination only when the amount
is exactly 1. -/
def Cpu.bsr (c : Cpu) (x0 x1 : Fin 16) : Cpu :=
  let res := (if c.xs x1 < 32 then c.xs x0 >>> c.xs x1 else 0) |||
    (if c.get_flag F_CARRY then 1 else 0)
  let c1 := c.clear_flags
    ((1 <<< F_ZERO) ||| (1 <<< F_CARRY) ||| (1 <<< F_NEGATIVE) ||| (1 <<< F_PARITY))
  let c2 := c1.set_flag F_ZERO (res % 4294967296 == 0)
  let c3 := c2.set_flag F_NEGATIVE (res &&& 0x80000000 != 0)
  let c4 := if c.xs x1 = 1 then c3.set_flag F_CARRY (c.xs x0 &&& 1 != 0) else c3
  let c5 := c4.set_flag F_PARITY (res &&& 1 != 0)
  { c5 with xs := Function.update c5.xs x0 (res % 4294967296) }

/-- `fn and`. -/
def Cpu.and (c : Cpu) (x0 x1 : Fin 16) : Cpu :=
  let c := { c with xs := Function.update c.xs x0 (c.xs x0 &&& c.xs x1) }
  c.update_flags_int (c.xs x0)

/-- `fn or`. -/
def Cpu.or (c : Cpu) (x0 x1 : Fin 16) : Cpu :=
  let c := { c with xs := Function.update c.xs x0 (c.xs x0 ||| c.xs x1) }
  c.update_flags_int (c.xs x0)

/-- `fn xor`. -/
def Cpu.xor (c : Cpu) (x0 x1 : Fin 16) : Cpu :=
  let c := { c with xs := Function.update c.xs x0 (c.xs x0 ^^^ c.xs x1) }
  c.update_flags_int (c.xs x0)

/-- `fn move_int`. -/
def Cpu.move_int (c : Cpu) (x0 x1 : Fin 16) : Cpu :=
  let c := { c with xs := Function.update c.xs x0 (c.xs x1) }
  c.update_flags_int (c.xs x0)

/-- `fn move_float`. -/
def Cpu.move_float (fm : FloatModel) (c : Cpu) (x0 x1 : Fin 16) : Cpu :=
  let c := { c with fs := Function.update c.fs x0 (c.fs x1) }
  c.update_flags_float fm (c.fs x0)

/-- `fn move_int_float`: value conversion `(f as i32) as u32` through the
float model. -/
def Cpu.move_int_float (fm : FloatModel) (c : Cpu) (x0 f1 : Fin 16) : Cpu :=
  let c := { c with xs := Function.update c.xs x0 (fm.toInt (c.fs f1)) }
  c.update_flags_int (c.xs x0)

/-- `fn move_float_int`: value conversion `(x as i32) as f32` through the
float model. -/
def Cpu.move_float_int (fm : FloatModel) (c : Cpu) (f0 x1 : Fin 16) : Cpu :=
  let c := { c with fs := Function.update c.fs f0 (fm.ofInt (c.xs x1)) }
  c.update_flags_float fm (c.fs f0)

/-- `fn transmute_int_float`: `to_bits` is the identity on the stored
payload. -/
def Cpu.transmute_int_float (_fm : FloatModel) (c : Cpu) (x0 f1 : Fin 16) : Cpu :=
  let c := { c with xs := Function.update c.xs x0 (c.fs f1) }
  c.update_flags_int (c.xs x0)

/-- `fn transmute_float_int`: `from_bits` is the identity on the stored
payload. -/
def Cpu.transmute_float_int (fm : FloatModel) (c : Cpu) (f0 x1 : Fin 16) : Cpu :=
  let c := { c with fs := Function.update c.fs f0 (c.xs x1) }
  c.update_flags_float fm (c.fs f0)

/-- `fn load_indirect_int`: the address comes from a register. -/
def Cpu.load_indirect_int (c : Cpu) (x0 addr : Fin 16) : Res Unit :=
  let a := c.xs addr
  (c.read a).bind fun b0 c =>
  (c.read ((a + 1) % 4294967296)).bind fun b1 c =>
  (c.read ((a + 2) % 4294967296)).bind fun b2 c =>
  (c.read ((a + 3) % 4294967296)).bind fun b3 c =>
  let data := b0 ||| b1 <<< 8 ||| b2 <<< 16 ||| b3 <<< 24
  let c := { c with xs := Function.update c.xs x0 data }
  .ok () (c.update_flags_int data)

/-- `fn load_indirect_float`. -/
def Cpu.load_indirect_float (fm : FloatModel) (c : Cpu) (f0 addr : Fin 16) : Res Unit :=
  let a := c.xs addr
  (c.read a).bind fun b0 c =>
  (c.read ((a + 1) % 4294967296)).bind fun b1 c =>
  (c.read ((a + 2) % 4294967296)).bind fun b2 c =>
  (c.read ((a + 3) % 4294967296)).bind fun b3 c =>
  let data := b0 ||| b1 <<< 8 ||| b2 <<< 16 ||| b3 <<< 24
  let c := { c with fs := Function.update c.fs f0 data }
  .ok () (c.update_flags_float fm data)

/-- `fn store_indirect_int`. -/
def Cpu.store_indirect_int (c : Cpu) (x0 addr : Fin 16) : Res Unit :=
  let a := c.xs addr
  (c.write a (c.xs x0 % 256)).bind fun _ c =>
  (c.write ((a + 1) % 4294967296) ((c.xs x0 >>> 8) % 256)).bind fun _ c =>
  (c.write ((a + 2) % 4294967296) ((c.xs x0 >>> 16) % 256)).bind fun _ c =>
  c.write ((a + 3) % 4294967296) ((c.xs x0 >>> 24) % 256)

/-- `fn store_indirect_short`. -/
def Cpu.store_indirect_short (c : Cpu) (x0 addr : Fin 16) : Res Unit :=
  let a := c.xs addr
  (c.write a (c.xs x0 % 256)).bind fun _ c =>
  c.write ((a + 1) % 4294967296) ((c.xs x0 >>> 8) % 256)

/-- `fn store_indirect_byte`. -/
def Cpu.store_indirect_byte (c : Cpu) (x0 addr : Fin 16) : Res Unit :=
  c.write (c.xs addr) (c.xs x0 % 256)

/-- `fn store_indirect_float`. -/
def Cpu.store_indirect_float (c : Cpu) (f0 addr : Fin 16) : Res Unit :=
  let a := c.xs addr
  let data := c.fs f0
  (c.write a (data % 256)).bind fun _ c =>
  (c.write ((a + 1) % 4294967296) ((data >>> 8) % 256)).bind fun _ c =>
  (c.write ((a + 2) % 4294967296) ((data >>> 16) % 256)).bind fun _ c =>
  c.write ((a + 3) % 4294967296) ((data >>> 24) % 256)

/-- `fn store_int`: fetch a 32-bit address, store four bytes. -/
def Cpu.store_int (c : Cpu) (x0 : Fin 16) : Res Unit :=
  c.fetch32.bind fun addr c =>
  (c.write addr (c.xs x0 % 256)).bind fun _ c =>
  (c.write ((addr + 1) % 4294967296) ((c.xs x0 >>> 8) % 256)).bind fun _ c =>
  (c.write ((addr + 2) % 4294967296) ((c.xs x0 >>> 16) % 256)).bind fun _ c =>
  c.write ((addr + 3) % 4294967296) ((c.xs x0 >>> 24) % 256)

/-- `fn store_short`. -/
def Cpu.store_short (c : Cpu) (x0 : Fin 16) : Res Unit :=
  c.fetch32.bind fun addr c =>
  (c.write addr (c.xs x0 % 256)).bind fun _ c =>
  c.write ((addr + 1) % 4294967296) ((c.xs x0 >>> 8) % 256)

/-- `fn store_byte`. -/
def Cpu.store_byte (c : Cpu) (x0 : Fin 16) : Res Unit :=
  c.fetch32.bind fun addr c =>
  c.write addr (c.xs x0 % 256)

/-- `fn store_float`. -/
def Cpu.store_float (c : Cpu) (f0 : Fin 16) : Res Unit :=
  c.fetch32.bind fun addr c =>
  let data := c.fs f0
  (c.write addr (data % 256)).bind fun _ c =>
  (c.write ((addr + 1) % 4294967296) ((data >>> 8) % 256)).bind fun _ c =>
  (c.write ((addr + 2) % 4294967296) ((data >>> 16) % 256)).bind fun _ c =>
  c.write ((addr + 3) % 4294967296) ((data >>> 24) % 256)

/-- `fn privileged_move`: write a control register.  The guard of the
source is transcribed verbatim: it tests `p as u32 & F_USER_RING != 0`,
that is, the selector ANDed with the number 11, not the user-ring flag of
the flags word. -/
def Cpu.privileged_move (c : Cpu) (x0 : Fin 16) (p : Nat) : Res Unit :=
  if p &&& F_USER_RING ≠ 0 then
    .fault .unprivilegedOpcode c
  else
    match p with
    | 0 => .ok () { c with flags := c.xs x0 }
    | 1 => .ok () { c with memmap := c.xs x0 }
    | 2 => .ok () { c with interrupt_mask := c.xs x0 % 256 }
    | _ => .ok () c

/-- `fn unprivileged_move`: read a control register (note the argument
order of the source: the selector is the first nibble, the destination
register the second). -/
def Cpu.unprivileged_move (c : Cpu) (p : Nat) (x0 : Fin 16) : Cpu :=
  match p with
  | 0 => { c with xs := Function.update c.xs x0 c.flags }
  | 1 => { c with xs := Function.update c.xs x0 c.memmap }
  | 2 => { c with xs := Function.update c.xs x0 c.interrupt_mask }
  | _ => c

/-- Conversion of an operand nibble to a register index; nibbles are below
16 by construction, so the `% 16` is the identity at every call site. -/
def fin16 (n : Nat) : Fin 16 :=
  ⟨n % 16, Nat.mod_lt n (by omega)⟩

/-- `fn decode_instruction`: fetch one opcode byte and dispatch on its
two-bit class prefix, then on the sub-code, reading operand bytes as
needed.  The `unreachable!` arms of the source are `Res.crash`. -/
def Cpu.decode_instruction (fm : FloatModel) (c : Cpu) : Res Unit :=
  c.exec.bind fun opcode c =>
  match opcode &&& 0xc0 with
  | 0x00 =>
      match opcode &&& 0x3f with
      | 0x00 => c.branch_true F_ZERO
      | 0x01 => c.branch_true F_OVERFLOW
      | 0x02 => c.branch_true F_CARRY
      | 0x03 => c.branch_true F_NEGATIVE
      | 0x04 => c.branch_true F_PARITY
      | 0x05 => c.branch_true F_NAN
      | 0x06 => c.branch_true F_INFINITE
      | 0x07 => c.branch_true F_MEMMAP_ENABLE
      | 0x08 => c.branch_false F_ZERO
      | 0x09 => c.branch_false F_OVERFLOW
      | 0x0a => c.branch_false F_CARRY
      | 0x0b => c.branch_false F_NEGATIVE
      | 0x0c => c.branch_false F_PARITY
      | 0x0d => c.branch_false F_NAN
      | 0x0e => c.branch_false F_INFINITE
      | 0x0f => c.branch_false F_MEMMAP_ENABLE
      | 0x10 => .ok () (c.set_carry false)
      | 0x11 => .ok () (c.set_carry true)
      | 0x12 => c.set_memmap_enable false
      | 0x13 => c.set_memmap_enable true
      | 0x14 => c.set_interrupt_enable false
      | 0x15 => c.set_interrupt_enable true
      | 0x17 => c.set_user_ring true
      | 0x18 => c.call
      | 0x19 => c.ret
      | _ => .ok () c
  | 0x40 =>
      let data := fin16 (opcode &&& 0x0f)
      match opcode &&& 0x30 with
      | 0x00 => c.load_lit_int data
      | 0x10 => c.load_lit_float fm data
      | 0x20 => c.load_int data
      | 0x30 => c.load_float fm data
      | _ => .crash c
  | 0x80 =>
      c.exec.bind fun data c =>
      let fst := fin16 ((data &&& 0xf0) >>> 4)
      let snd := fin16 (data &&& 0x0f)
      match opcode &&& 0x3f with
      | 0x00 => .ok () (c.iadd fst snd)
      | 0x01 => .ok () (c.isub fst snd)
      | 0x02 => .ok () (c.imul fst snd)
      | 0x03 => c.idiv fst snd
      | 0x04 => c.imod fst snd
      | 0x05 => .ok () (c.fadd fm fst snd)
      | 0x06 => .ok () (c.fsub fm fst snd)
      | 0x07 => .ok () (c.fmul fm fst snd)
      | 0x08 => .ok () (c.fdiv fm fst snd)
      | 0x09 => .ok () (c.bsl fst snd)
      | 0x0a => .ok () (c.bsr fst snd)
      | 0x0b => .ok () (c.and fst snd)
      | 0x0c => .ok () (c.or fst snd)
      | 0x0d => .ok () (c.xor fst snd)
      | 0x0e => .ok () (c.move_int fst snd)
      | 0x0f => .ok () (c.move_float fm fst snd)
      | 0x10 => .ok () (c.move_int_float fm fst snd)
      | 0x11 => .ok () (c.move_float_int fm fst snd)
      | 0x12 => .ok () (c.transmute_int_float fm fst snd)
      | 0x13 => .ok () (c.transmute_float_int fm fst snd)
      | 0x14 => c.load_indirect_int fst snd
      | 0x15 => c.load_indirect_float fm fst snd
      | 0x16 => c.store_indirect_int fst snd
      | 0x17 => c.store_indirect_short fst snd
      | 0x18 => c.store_indirect_byte fst snd
      | 0x19 => c.store_indirect_float fst snd
      | 0x1a => c.privileged_move fst (data &&& 0x0f)
      | 0x1b => .ok () (c.unprivileged_move ((data &&& 0xf0) >>> 4) snd)
      | _ => .ok () c
  | 0xc0 =>
      let data := fin16 (opcode &&& 0x0f)
      match opcode &&& 0x30 with
      | 0x00 => c.store_int data
      | 0x10 => c.store_short data
      | 0x20 => c.store_byte data
      | 0x30 => c.store_float data
      | _ => .crash c
  | _ => .crash c

/-- `fn call_interrupt`: record the interrupt id in the last-interrupt
register and, when the machine was in the user ring, switch to the saved
system stack pointer and zero the base pointer.  The state-saving loop of
the source is empty (`for i in 4..8 {}`), so nothing else happens. -/
def Cpu.call_interrupt (c : Cpu) (interrupt : Nat) : Cpu :=
  let c := { c with xs := Function.update c.xs R_INT interrupt }
  if c.get_flag F_USER_RING then
    { c with xs :=
        Function.update (Function.update c.xs R_SP c.system_sp) R_BASE 0 }
  else
    c

/-- `fn nmi`: the body of the source is a single commented-out line
(`self.interrupt_queue.push_back(id | 0x80000000)`), so the function does
nothing. -/
def Cpu.nmi (c : Cpu) (_i : Nat) : Cpu :=
  c

/-- `fn irq`: append a maskable interrupt to the queue when its mask bit is
set. -/
def Cpu.irq (c : Cpu) (i : Nat) : Cpu :=
  if (1 <<< i) &&& c.interrupt_mask ≠ 0 then
    { c with interrupt_queue := c.interrupt_queue ++ [i] }
  else
    c

/-- `fn step`: exactly as in the source, service the front of the
interrupt queue when the queue is non-empty and
`flags & F_INTERRUPT_ENABLE != 0` — with `F_INTERRUPT_ENABLE = 3` used as
a mask, not as a bit index — and otherwise decode one instruction,
converting a fault into a call of `nmi` with the matching id.  A crash of
the decoder (host panic) yields `none`. -/
def Cpu.step (fm : FloatModel) (c : Cpu) : Option Cpu :=
  if c.interrupt_queue ≠ [] ∧ c.flags &&& F_INTERRUPT_ENABLE ≠ 0 then
    match c.interrupt_queue with
    | i :: rest => some (Cpu.call_interrupt { c with interrupt_queue := rest } i)
    | [] => none
  else
    match c.decode_instruction fm with
    | .ok _ c => some c
    | .fault e c =>
        some (c.nmi (match e with
          | .usedFreePage => 0x00000000
          | .invalidPermissions _ _ => 0x00000001
          | .unprivilegedOpcode => 0x00000002))
    | .crash _ => none

/-! ### Spec-side translation functions for claim C4 -/

/-- Four-byte little-endian table read at byte offset `i` from table base
`tbl`, with 32-bit address wrap, as the translator performs it. -/
def Cpu.readTable (c : Cpu) (tbl i : Nat) : Nat :=
  c.busRead ((tbl + i) % 4294967296)
    ||| c.busRead ((tbl + i + 1) % 4294967296) <<< 8
    ||| c.busRead ((tbl + i + 2) % 4294967296) <<< 16
    ||| c.busRead ((tbl + i + 3) % 4294967296) <<< 24

/-- The translation exactly as claim C4 words it: a 256-entry by 4-byte top
table with entry `i` at `memmap + i*4`, a leaf table with entry `j` at
`T2 + j*4`, the permission nibble `(L >> 28) & 0xf` and the base
`L & 0x0fffffff` taken from the leaf word `L` itself, and the low 16
address bits added to the base after the checks. -/
def checkMemoryClaimC4 (c : Cpu) (addr permissions : Nat) : Except Fault Nat :=
  if c.flags &&& (1 <<< F_MEMMAP_ENABLE) ≠ 0 then
    let top := addr >>> 24
    let mid := (addr >>> 16) &&& 0xff
    let t2 := c.readTable c.memmap (top * 4)
    if t2 = 0 then
      .error .usedFreePage
    else
      let L := c.readTable t2 (mid * 4)
      let perms := (L >>> 28) &&& 0xf
      let base := L &&& 0x0fffffff
      if perms &&& 0x08 = 0 then
        .error .usedFreePage
      else if perms &&& permissions ≠ permissions then
        .error (.invalidPermissions perms permissions)
      else
        .ok (base + (addr &&& 0xffff))
  else
    .ok addr

/-- The translation as claim C4 must be amended to match the source: table
entries are read at byte offset equal to the index (top entry at
`memmap + top`, leaf word at `T2 + mid`), the low 16 address bits are
added to the whole leaf word with 32-bit wrap before anything is
extracted, and the permission nibble and the 28-bit physical address both
come from that sum. -/
def checkMemorySpecAmended (c : Cpu) (addr permissions : Nat) : Except Fault Nat :=
  if c.flags &&& (1 <<< F_MEMMAP_ENABLE) ≠ 0 then
    let top := addr >>> 24
    let mid := (addr >>> 16) &&& 0xff
    let t2 := c.readTable c.memmap top
    if t2 = 0 then
      .error .usedFreePage
    else
      let sum := (c.readTable t2 mid + (addr &&& 0xffff)) % 4294967296
      let perms := (sum >>> 28) &&& 0xf
      let base := sum &&& 0x0fffffff
      if perms &&& 0x08 = 0 then
        .error .usedFreePage
      else if perms &&& permissions ≠ permissions then
        .error (.invalidPermissions perms permissions)
      else
        .ok base
  else
    .ok addr

/-! ### Bit-level helper lemmas -/

lemma beq_decide (a b : Nat) : (a == b) = decide (a = b) := by
  cases h : decide (a = b) <;> simp_all

lemma tb_one_shift (k j : Nat) : ((1 : Nat) <<< k).testBit j = decide (k = j) := by
  rw [Nat.shiftLeft_eq, one_mul, Nat.testBit_two_pow]

lemma tb_bool_shift (b : Bool) (k j : Nat) :
    ((if b then (1 : Nat) else 0) <<< k).testBit j = (b && decide (k = j)) := by
  cases b
  · simp
  · show ((1 : Nat) <<< k).testBit j = decide (k = j)
    exact tb_one_shift k j

lemma tb_ffffffff (j : Nat) : (0xffffffff : Nat).testBit j = decide (j < 32) := by
  rw [show (0xffffffff : Nat) = 2 ^ 32 - 1 from by norm_num, Nat.testBit_two_pow_sub_one]

lemma bne_pow_testBit (x n : Nat) : (x &&& 2 ^ n != 0) = x.testBit n := by
  rw [Nat.and_two_pow]
  cases h : x.testBit n <;> simp [h, Nat.pow_pos]

lemma bne_shift_testBit (x n : Nat) : (x &&& (1 <<< n) != 0) = x.testBit n := by
  rw [Nat.shiftLeft_eq, one_mul, bne_pow_testBit]

lemma bne_31_testBit (x : Nat) : (x &&& 0x80000000 != 0) = x.testBit 31 := by
  rw [show (0x80000000 : Nat) = 2 ^ 31 from by norm_num, bne_pow_testBit]

lemma bne_32_testBit (x : Nat) : (x &&& 0x100000000 != 0) = x.testBit 32 := by
  rw [show (0x100000000 : Nat) = 2 ^ 32 from by norm_num, bne_pow_testBit]

lemma bne_0_testBit (x : Nat) : (x &&& 1 != 0) = x.testBit 0 := by
  rw [show (1 : Nat) = 2 ^ 0 from by norm_num, bne_pow_testBit]

lemma get_flag_testBit (c : Cpu) (f : Nat) : c.get_flag f = c.flags.testBit f :=
  bne_shift_testBit _ _

lemma testBit_ge_32 (x j : Nat) (hx : x < 4294967296) (hj : 32 ≤ j) :
    x.testBit j = false := by
  apply Nat.testBit_lt_two_pow
  calc x < 4294967296 := hx
  _ = 2 ^ 32 := by norm_num
  _ ≤ 2 ^ j := Nat.pow_le_pow_right (by norm_num) hj

/-- Binary complement against an all-ones word is subtraction. -/
lemma xor_all_ones (n : Nat) : ∀ v, v < 2 ^ n → (2 ^ n - 1) ^^^ v = 2 ^ n - 1 - v := by
  induction n with
  | zero =>
      intro v hv
      interval_cases v
      rfl
  | succ n ih =>
      intro v hv
      have hk : 0 < 2 ^ n := Nat.pos_pow_of_pos _ (by omega)
      have h2 : 2 ^ (n + 1) = 2 * 2 ^ n := by rw [Nat.pow_succ]; ring
      have hmod : ((2 ^ (n + 1) - 1) ^^^ v) % 2 = (2 ^ (n + 1) - 1 + v) % 2 :=
        Nat.xor_mod_two_eq
      have hdiv : ((2 ^ (n + 1) - 1) ^^^ v) / 2 = 2 ^ n - 1 - v / 2 := by
        rw [Nat.xor_div_two, show (2 ^ (n + 1) - 1) / 2 = 2 ^ n - 1 from by omega,
          ih (v / 2) (by omega)]
      have hdm := Nat.div_add_mod ((2 ^ (n + 1) - 1) ^^^ v) 2
      omega

lemma xor_ffffffff (v : Nat) (hv : v < 4294967296) :
    (0xffffffff : Nat) ^^^ v = 4294967295 - v := by
  have h := xor_all_ones 32 v (by norm_num at hv ⊢; omega)
  norm_num at h
  exact h

lemma mod256_mod256 (x : Nat) : x % 256 % 256 = x % 256 :=
  Nat.mod_mod_of_dvd x dvd_rfl

/-- Reassembling the four little-endian bytes of a 32-bit word. -/
lemma recompose32 (d : Nat) (hd : d < 4294967296) :
    d % 256 ||| ((d >>> 8) % 256) <<< 8 ||| ((d >>> 16) % 256) <<< 16 |||
      ((d >>> 24) % 256) <<< 24 = d := by
  apply Nat.eq_of_testBit_eq
  intro j
  have h256 : (256 : Nat) = 2 ^ 8 := by norm_num
  simp only [Nat.testBit_lor, Nat.testBit_shiftLeft, h256, Nat.testBit_mod_two_pow,
    Nat.testBit_shiftRight, ge_iff_le]
  rcases Nat.lt_or_ge j 8 with h | h
  · simp [h, show ¬ (8 ≤ j) by omega, show ¬ (16 ≤ j) by omega, show ¬ (24 ≤ j) by omega]
  rcases Nat.lt_or_ge j 16 with h1 | h1
  · simp [show ¬ (j < 8) by omega, show 8 + (j - 8) = j by omega, h,
      show j - 8 < 8 by omega, show ¬ (16 ≤ j) by omega, show ¬ (24 ≤ j) by omega]
  rcases Nat.lt_or_ge j 24 with h5 | h5
  · simp [show 16 + (j - 16) = j by omega, show j - 16 < 8 by omega,
      show ¬ (j < 8) by omega, show 8 ≤ j by omega, show ¬ (j - 8 < 8) by omega,
      show 16 ≤ j by omega, show ¬ (24 ≤ j) by omega]
  rcases Nat.lt_or_ge j 32 with h6 | h6
  · simp [show 24 + (j - 24) = j by omega, show j - 24 < 8 by omega,
      show ¬ (j < 8) by omega, show 8 ≤ j by omega, show ¬ (j - 8 < 8) by omega,
      show 16 ≤ j by omega, show ¬ (j - 16 < 8) by omega, show 24 ≤ j by omega]
  · simp [testBit_ge_32 d j hd h6, show ¬ (j < 8) by omega, show ¬ (j - 8 < 8) by omega,
      show ¬ (j - 16 < 8) by omega, show ¬ (j - 24 < 8) by omega,
      show 8 ≤ j by omega, show 16 ≤ j by omega, show 24 ≤ j by omega]

/-! ### Concrete machine states used as failing inputs and counterexamples -/

/-- All-zero memory bus. -/
def zeroMem : Nat → Nat := fun _ => 0

/-- All-zero register file. -/
def zeroRegs : Fin 16 → Nat := fun _ => 0

/-- State for C1, first half: only the INTERRUPT_ENABLE bit (bit 3) of the
flags word is set, and one IRQ with id 42 is pending. -/
def cpuC1a : Cpu :=
  { xs := zeroRegs, fs := zeroRegs, flags := 8, interrupt_mask := 255, memmap := 0,
    system_sp := 0, interrupt_queue := [42], mem := zeroMem }

/-- State for C1, second half: bit 0 of the flags word (part of the
last-interrupt field, with INTERRUPT_ENABLE clear) is set, and one IRQ
with id 42 is pending. -/
def cpuC1b : Cpu :=
  { xs := zeroRegs, fs := zeroRegs, flags := 1, interrupt_mask := 255, memmap := 0,
    system_sp := 0, interrupt_queue := [42], mem := zeroMem }

/-- State for C2: MEMMAP_ENABLE set with `memmap = 0` over all-zero memory,
so the very first instruction fetch faults with `UsedFreePage`. -/
def cpuC2 : Cpu :=
  { xs := zeroRegs, fs := zeroRegs, flags := 4096, interrupt_mask := 255, memmap := 0,
    system_sp := 0, interrupt_queue := [], mem := zeroMem }

/-- State for C3 and C5: USER_RING (bit 11) set, everything else zero. -/
def cpuUserRing : Cpu :=
  { xs := zeroRegs, fs := zeroRegs, flags := 2048, interrupt_mask := 255, memmap := 0,
    system_sp := 0, interrupt_queue := [], mem := zeroMem }

/-- State for C3, kernel half: USER_RING clear. -/
def cpuKernel : Cpu :=
  { xs := zeroRegs, fs := zeroRegs, flags := 0, interrupt_mask := 255, memmap := 0,
    system_sp := 0, interrupt_queue := [], mem := zeroMem }

/-- State for C5: USER_RING set and the two instruction bytes
`9a 00` (privileged move of register 0 into the flags word, selector 0)
at the program counter. -/
def cpuC5 : Cpu :=
  { xs := zeroRegs, fs := zeroRegs, flags := 2048, interrupt_mask := 255, memmap := 0,
    system_sp := 0, interrupt_queue := [],
    mem := fun a => if a = 0 then 0x9a else 0 }

/-- Memory for the C4 counterexample: byte 4 holds 0x10 (the first byte of
the top-table entry for index 1 under the claimed 4-byte stride) and byte
0x13 holds 0xf0 (the top byte of the leaf word at 0x10). -/
def memC4 : Nat → Nat :=
  fun a => if a = 4 then 0x10 else if a = 0x13 then 0xf0 else 0

/-- State for the C4 counterexample: MEMMAP_ENABLE set, `memmap = 0`. -/
def cpuC4 : Cpu :=
  { xs := zeroRegs, fs := zeroRegs, flags := 4096, interrupt_mask := 255, memmap := 0,
    system_sp := 0, interrupt_queue := [], mem := memC4 }

/-- State for the C8 counterexample: `xs[0] = 1`, carry clear. -/
def cpuC8 : Cpu :=
  { xs := fun i => if i = 0 then 1 else 0, fs := zeroRegs, flags := 0,
    interrupt_mask := 255, memmap := 0, system_sp := 0, interrupt_queue := [],
    mem := zeroMem }

/-- State for the C9 counterexample: `xs[0] = 3`, `xs[1] = 32`, CARRY set. -/
def cpuC9 : Cpu :=
  { xs := fun i => if i = 0 then 3 else if i = 1 then 32 else 0, fs := zeroRegs,
    flags := 64, interrupt_mask := 255, memmap := 0, system_sp := 0,
    interrupt_queue := [], mem := zeroMem }

/-- State for the C10 counterexample: all registers zero, so `xs[1]` is a
zero divisor. -/
def cpuC10 : Cpu :=
  { xs := zeroRegs, fs := zeroRegs, flags := 0, interrupt_mask := 255, memmap := 0,
    system_sp := 0, interrupt_queue := [], mem := zeroMem }

/-- C1 (code bug): `step` gates interrupt servicing on
`flags & F_INTERRUPT_ENABLE != 0` with `F_INTERRUPT_ENABLE = 3` used as a
mask rather than as the bit index 3.  In `cpuC1a` the INTERRUPT_ENABLE
flag (bit 3) is set and an interrupt is queued, yet `step` executes an
instruction (the queue keeps its element and the PC advances past a
five-byte branch); in `cpuC1b` the INTERRUPT_ENABLE flag is clear (only
bit 0, part of the last-interrupt field, is set), yet `step` dequeues and
services the interrupt.  Both directions contradict the claim, for every
float model. -/
theorem C1_interrupt_gate_bug :
    (∀ fm : FloatModel,
      Option.map (fun c => (c.interrupt_queue, c.xs R_PC)) (Cpu.step fm cpuC1a) =
        some ([42], 5))
    ∧ (∀ fm : FloatModel,
      Option.map (fun c => (c.interrupt_queue, c.xs R_INT)) (Cpu.step fm cpuC1b) =
        some ([], 42)) :=
  ⟨fun _ => rfl, fun _ => rfl⟩

/-- C2 (code bug): in `cpuC2` the instruction fetch faults with
`UsedFreePage`, `step` maps the fault to NMI id 0 and calls `nmi` — but
the body of `nmi` is commented out in the source, so the interrupt queue
stays empty and the fault is dropped instead of leaving the tagged id
`0x80000000` pending. -/
theorem C2_fault_dropped :
    (∀ fm : FloatModel, Cpu.decode_instruction fm cpuC2 = .fault .usedFreePage cpuC2)
    ∧ (∀ fm : FloatModel, Option.map Cpu.interrupt_queue (Cpu.step fm cpuC2) = some [])
    ∧ (∀ c : Cpu, ∀ i : Nat, (c.nmi i).interrupt_queue = c.interrupt_queue) :=
  ⟨fun _ => rfl, fun _ => rfl, fun _ _ => rfl⟩

/-- C3 (code bug): `privileged_move` tests `p & F_USER_RING != 0`, ANDing
the selector nibble with the number 11 instead of testing the user-ring
flag.  With USER_RING set, selector 0 therefore succeeds and overwrites
the whole flags word (clearing USER_RING); with USER_RING clear,
selectors 1 (memmap) and 2 (interrupt_mask) always fault with
`UnprivilegedOpcode`.  The claim requires exactly the opposite on both
sides. -/
theorem C3_privileged_move_bug :
    cpuUserRing.get_flag F_USER_RING = true
    ∧ (∃ d, cpuUserRing.privileged_move 0 0 = .ok () d ∧ d.flags = 0
        ∧ d.get_flag F_USER_RING = false)
    ∧ cpuKernel.get_flag F_USER_RING = false
    ∧ cpuKernel.privileged_move 0 1 = .fault .unprivilegedOpcode cpuKernel
    ∧ cpuKernel.privileged_move 0 2 = .fault .unprivilegedOpcode cpuKernel := by
  refine ⟨by decide, ⟨_, rfl, rfl, by decide⟩, by decide, rfl, rfl⟩

/-- C5 (code bug): starting from `cpuC5` (USER_RING set, empty interrupt
queue) one `step` that services no interrupt executes the privileged-move
instruction `9a 00`, which — because of the broken ring check in
`privileged_move` — overwrites the flags word with `xs[0] = 0` and so
clears USER_RING without any interrupt entry, for every float model. -/
theorem C5_user_ring_cleared :
    cpuC5.get_flag F_USER_RING = true
    ∧ cpuC5.interrupt_queue = []
    ∧ (∀ fm : FloatModel, Option.map Cpu.flags (Cpu.step fm cpuC5) = some 0) :=
  ⟨by decide, rfl, fun _ => rfl⟩

/-- C4 (counterexample): at virtual address `0x01000000` (top index 1) the
translator of the source reads the top-table entry at byte offset 1 from
`memmap`, not at offset 4 as the claim states; with `memC4` the source
faults with `UsedFreePage` while the claimed translation succeeds and
returns physical address 0. -/
theorem C4_cex :
    cpuC4.check_memory 0x01000000 READ = .error .usedFreePage
    ∧ checkMemoryClaimC4 cpuC4 0x01000000 READ = .ok 0
    ∧ cpuC4.check_memory 0x01000000 READ ≠ checkMemoryClaimC4 cpuC4 0x01000000 READ := by
  have h1 : cpuC4.check_memory 0x01000000 READ = .error .usedFreePage := rfl
  have h2 : checkMemoryClaimC4 cpuC4 0x01000000 READ = .ok 0 := rfl
  refine ⟨h1, h2, ?_⟩
  rw [h1, h2]
  intro h
  exact Except.noConfusion h

/-- C8 (counterexample): with `x0 = x1 = 0` and `xs[0] = 1` the add/sub
round trip (carry cleared before the add, set before the subtract) yields
4, not the original 1, and a single `isub 0 0` changes the operand
register it is claimed to restore. -/
theorem C8_cex :
    (((cpuC8.iadd 0 0).set_carry true).isub 0 0).xs 0 = 4
    ∧ (((cpuC8.iadd 0 0).set_carry true).isub 0 0).xs 0 ≠ cpuC8.xs 0
    ∧ (cpuC8.isub 0 0).xs 0 = 3
    ∧ (cpuC8.isub 0 0).xs 0 ≠ cpuC8.xs 0 := by
  refine ⟨by decide, by decide, by decide, by decide⟩

/-- C9 (counterexample): `bsl` with shift amount 32 and CARRY initially set
stores 1, not 0: the carry is OR'd into the intermediate even when the
shift amount is 32 or more. -/
theorem C9_cex :
    (cpuC9.bsl 0 1).xs 0 = 1 ∧ (cpuC9.bsl 0 1).xs 0 ≠ 0 := by
  refine ⟨by decide, by decide⟩

/-- C10 (counterexample): `idiv`/`imod` with a zero divisor are not total:
the Rust `/=` and `%=` on `u32` abort the host process (modelled by
`Res.crash`), so the core does evaluate to a host-level failure rather
than any machine state. -/
theorem C10_cex :
    Cpu.idiv cpuC10 0 1 = Res.crash cpuC10 ∧ Cpu.imod cpuC10 0 1 = Res.crash cpuC10 :=
  ⟨rfl, rfl⟩

/-! ### Characterization lemmas for the ALU operations -/

lemma masked31_eq (x y : Nat) :
    (x &&& 0x80000000 == y &&& 0x80000000) = decide (x.testBit 31 = y.testBit 31) := by
  rw [show (0x80000000 : Nat) = 2 ^ 31 from by norm_num, Nat.and_two_pow x,
    Nat.and_two_pow y, beq_decide]
  cases hx : x.testBit 31 <;> cases hy : y.testBit 31 <;> norm_num

lemma get_flag_update_xs (c : Cpu) (u : Fin 16 → Nat) (f : Nat) :
    (({ c with xs := u } : Cpu)).get_flag f = c.get_flag f := rfl

lemma iadd_xs_self (c : Cpu) (x0 x1 : Fin 16) :
    (c.iadd x0 x1).xs x0 =
      (c.xs x0 + c.xs x1 + (if c.get_flag F_CARRY then 1 else 0)) % 4294967296 := by
  simp [Cpu.iadd, Cpu.set_flag, Cpu.clear_flags]

lemma iadd_xs_other (c : Cpu) (x0 x1 j : Fin 16) (hj : j ≠ x0) :
    (c.iadd x0 x1).xs j = c.xs j := by
  simp [Cpu.iadd, Cpu.set_flag, Cpu.clear_flags, Function.update_noteq hj]

lemma tb_one (m : Nat) : (1 : Nat).testBit m = decide (m = 0) := by
  rw [show (1 : Nat) = 2 ^ 0 from by norm_num, Nat.testBit_two_pow]
  by_cases h : m = 0 <;> simp [h]
  omega

lemma iadd_get_flag_zero (c : Cpu) (x0 x1 : Fin 16) :
    (c.iadd x0 x1).get_flag F_ZERO =
      decide ((c.xs x0 + c.xs x1 + (if c.get_flag F_CARRY then 1 else 0)) % 4294967296
        = 0) := by
  simp only [Cpu.iadd, Cpu.set_flag, Cpu.clear_flags, get_flag_testBit, F_ZERO, F_OVERFLOW,
    F_CARRY, F_NEGATIVE, F_PARITY]
  simp only [Nat.testBit_lor, Nat.testBit_land, Nat.testBit_xor, tb_bool_shift, tb_ffffffff,
    tb_one_shift]
  simp [beq_decide]

lemma iadd_get_flag_negative (c : Cpu) (x0 x1 : Fin 16) :
    (c.iadd x0 x1).get_flag F_NEGATIVE =
      (c.xs x0 + c.xs x1 + (if c.get_flag F_CARRY then 1 else 0)).testBit 31 := by
  simp only [Cpu.iadd, Cpu.set_flag, Cpu.clear_flags, get_flag_testBit, F_ZERO, F_OVERFLOW,
    F_CARRY, F_NEGATIVE, F_PARITY]
  simp only [Nat.testBit_lor, Nat.testBit_land, Nat.testBit_xor, tb_bool_shift, tb_ffffffff,
    tb_one_shift]
  simp [bne_31_testBit]

lemma iadd_get_flag_carry (c : Cpu) (x0 x1 : Fin 16) :
    (c.iadd x0 x1).get_flag F_CARRY =
      (c.xs x0 + c.xs x1 + (if c.get_flag F_CARRY then 1 else 0)).testBit 32 := by
  simp only [Cpu.iadd, Cpu.set_flag, Cpu.clear_flags, get_flag_testBit, F_ZERO, F_OVERFLOW,
    F_CARRY, F_NEGATIVE, F_PARITY]
  simp only [Nat.testBit_lor, Nat.testBit_land, Nat.testBit_xor, tb_bool_shift, tb_ffffffff,
    tb_one_shift]
  simp [bne_32_testBit]

lemma iadd_get_flag_parity (c : Cpu) (x0 x1 : Fin 16) :
    (c.iadd x0 x1).get_flag F_PARITY =
      (c.xs x0 + c.xs x1 + (if c.get_flag F_CARRY then 1 else 0)).testBit 0 := by
  simp only [Cpu.iadd, Cpu.set_flag, Cpu.clear_flags, get_flag_testBit, F_ZERO, F_OVERFLOW,
    F_CARRY, F_NEGATIVE, F_PARITY]
  simp only [Nat.testBit_lor, Nat.testBit_land, Nat.testBit_xor, tb_bool_shift, tb_ffffffff,
    tb_one_shift]
  simp [bne_0_testBit, beq_decide]

lemma iadd_get_flag_overflow (c : Cpu) (x0 x1 : Fin 16) :
    (c.iadd x0 x1).get_flag F_OVERFLOW =
      (decide ((c.xs x0).testBit 31 = (c.xs x1).testBit 31) &&
        !decide ((c.xs x0).testBit 31 =
          ((c.xs x0 + c.xs x1 + (if c.get_flag F_CARRY then 1 else 0))
            % 4294967296).testBit 31)) := by
  simp only [Cpu.iadd, Cpu.set_flag, Cpu.clear_flags, get_flag_testBit, F_ZERO, F_OVERFLOW,
    F_CARRY, F_NEGATIVE, F_PARITY]
  simp only [Nat.testBit_lor, Nat.testBit_land, Nat.testBit_xor, tb_bool_shift, tb_ffffffff,
    tb_one_shift]
  simp only [bne, masked31_eq]
  simp

lemma iadd_get_flag_other (c : Cpu) (x0 x1 : Fin 16) (f : Nat)
    (hW : c.flags < 4294967296) (h4 : f ≠ F_ZERO) (h5 : f ≠ F_OVERFLOW) (h6 : f ≠ F_CARRY)
    (h8 : f ≠ F_NEGATIVE) (h7 : f ≠ F_PARITY) :
    (c.iadd x0 x1).get_flag f = c.get_flag f := by
  simp only [F_ZERO, F_OVERFLOW, F_CARRY, F_NEGATIVE, F_PARITY] at h4 h5 h6 h8 h7
  simp only [Cpu.iadd, Cpu.set_flag, Cpu.clear_flags, get_flag_testBit, F_ZERO, F_OVERFLOW,
    F_CARRY, F_NEGATIVE, F_PARITY]
  simp only [Nat.testBit_lor, Nat.testBit_land, Nat.testBit_xor, tb_bool_shift, tb_ffffffff,
    tb_one_shift]
  rcases Nat.lt_or_ge f 32 with hf | hf
  · simp [hf, Ne.symm h4, Ne.symm h5, Ne.symm h6, Ne.symm h8, Ne.symm h7]
  · simp [testBit_ge_32 c.flags f hW hf, show ¬ (f < 32) by omega,
      Ne.symm h4, Ne.symm h5, Ne.symm h6, Ne.symm h8, Ne.symm h7]

lemma iadd_fields (c : Cpu) (x0 x1 : Fin 16) :
    (c.iadd x0 x1).fs = c.fs ∧ (c.iadd x0 x1).mem = c.mem ∧
    (c.iadd x0 x1).memmap = c.memmap ∧ (c.iadd x0 x1).interrupt_mask = c.interrupt_mask ∧
    (c.iadd x0 x1).interrupt_queue = c.interrupt_queue ∧
    (c.iadd x0 x1).system_sp = c.system_sp :=
  ⟨rfl, rfl, rfl, rfl, rfl, rfl⟩

lemma set_carry_xs (c : Cpu) (b : Bool) : (c.set_carry b).xs = c.xs := rfl

lemma get_flag_set_carry (c : Cpu) (b : Bool) : (c.set_carry b).get_flag F_CARRY = b := by
  simp only [Cpu.set_carry, Cpu.set_flag, Cpu.clear_flags, get_flag_testBit, F_CARRY]
  simp only [Nat.testBit_lor, Nat.testBit_land, Nat.testBit_xor, tb_bool_shift, tb_ffffffff,
    tb_one_shift]
  simp

/-- C7: for every well-formed state and register pair, `iadd` stores the
low 32 bits of the 64-bit sum `xs[x0] + xs[x1] + CARRY` in `xs[x0]`,
leaves every other register, the float file, memory, control registers and
the interrupt queue unchanged, and sets ZERO, NEGATIVE, CARRY, PARITY and
OVERFLOW exactly as the claim states while preserving every other flag
bit. -/
theorem C7_iadd (c : Cpu) (x0 x1 : Fin 16) (hWf : c.Wf) :
    ((c.iadd x0 x1).xs x0 =
      (c.xs x0 + c.xs x1 + (if c.get_flag F_CARRY then 1 else 0)) % 4294967296)
    ∧ (∀ j : Fin 16, j ≠ x0 → (c.iadd x0 x1).xs j = c.xs j)
    ∧ (c.iadd x0 x1).fs = c.fs
    ∧ (c.iadd x0 x1).mem = c.mem
    ∧ (c.iadd x0 x1).memmap = c.memmap
    ∧ (c.iadd x0 x1).interrupt_mask = c.interrupt_mask
    ∧ (c.iadd x0 x1).interrupt_queue = c.interrupt_queue
    ∧ (c.iadd x0 x1).system_sp = c.system_sp
    ∧ ((c.iadd x0 x1).get_flag F_ZERO =
        decide ((c.xs x0 + c.xs x1 + (if c.get_flag F_CARRY then 1 else 0)) % 4294967296
          = 0))
    ∧ ((c.iadd x0 x1).get_flag F_NEGATIVE =
        (c.xs x0 + c.xs x1 + (if c.get_flag F_CARRY then 1 else 0)).testBit 31)
    ∧ ((c.iadd x0 x1).get_flag F_CARRY =
        (c.xs x0 + c.xs x1 + (if c.get_flag F_CARRY then 1 else 0)).testBit 32)
    ∧ ((c.iadd x0 x1).get_flag F_PARITY =
        (c.xs x0 + c.xs x1 + (if c.get_flag F_CARRY then 1 else 0)).testBit 0)
    ∧ ((c.iadd x0 x1).get_flag F_OVERFLOW =
        (decide ((c.xs x0).testBit 31 = (c.xs x1).testBit 31) &&
          !decide ((c.xs x0).testBit 31 =
            ((c.xs x0 + c.xs x1 + (if c.get_flag F_CARRY then 1 else 0))
              % 4294967296).testBit 31)))
    ∧ (∀ f : Nat, f ≠ F_ZERO → f ≠ F_OVERFLOW → f ≠ F_CARRY → f ≠ F_NEGATIVE →
        f ≠ F_PARITY → (c.iadd x0 x1).get_flag f = c.get_flag f) :=
  ⟨iadd_xs_self c x0 x1, fun j hj => iadd_xs_other c x0 x1 j hj,
    (iadd_fields c x0 x1).1, (iadd_fields c x0 x1).2.1, (iadd_fields c x0 x1).2.2.1,
    (iadd_fields c x0 x1).2.2.2.1, (iadd_fields c x0 x1).2.2.2.2.1,
    (iadd_fields c x0 x1).2.2.2.2.2,
    iadd_get_flag_zero c x0 x1, iadd_get_flag_negative c x0 x1, iadd_get_flag_carry c x0 x1,
    iadd_get_flag_parity c x0 x1, iadd_get_flag_overflow c x0 x1,
    fun f h4 h5 h6 h8 h7 => iadd_get_flag_other c x0 x1 f hWf.2.1 h4 h5 h6 h8 h7⟩

/-- State for the C7 witness: the overflow scenario of the spec,
`xs[0] = 0x7fffffff`, `xs[1] = 1`, carry clear. -/
def cpuW7 : Cpu :=
  { xs := fun i => if i = 0 then 0x7fffffff else if i = 1 then 1 else 0, fs := zeroRegs,
    flags := 0, interrupt_mask := 255, memmap := 0, system_sp := 0, interrupt_queue := [],
    mem := zeroMem }

/-- Witness for C7 at the spec's overflow scenario. -/
theorem C7_iadd_witness :
    cpuW7.Wf ∧ (cpuW7.iadd 0 1).xs 0 =
      (cpuW7.xs 0 + cpuW7.xs 1 + (if cpuW7.get_flag F_CARRY then 1 else 0)) % 4294967296 :=
  ⟨by decide, (C7_iadd cpuW7 0 1 (by decide)).1⟩

/-- C8 (amended): for distinct registers `x0 ≠ x1`, adding and then
subtracting the same operand — carry cleared before the add, set before
the subtract — restores the destination register exactly, and `isub`
always restores the operand register `x1`. -/
theorem C8_amended (c : Cpu) (x0 x1 : Fin 16) (hWf : c.Wf) (hne : x0 ≠ x1) :
    ((((c.set_carry false).iadd x0 x1).set_carry true).isub x0 x1).xs x0 = c.xs x0
    ∧ ∀ d : Cpu, (d.isub x0 x1).xs x1 = d.xs x1 := by
  have ha : c.xs x0 < 4294967296 := hWf.1 x0
  have hb : c.xs x1 < 4294967296 := hWf.1 x1
  have hother : ∀ cc : Cpu, (cc.iadd x0 x1).xs x1 = cc.xs x1 :=
    fun cc => iadd_xs_other cc x0 x1 x1 (Ne.symm hne)
  constructor
  · unfold Cpu.isub
    simp only [Function.update_noteq hne, Function.update_same, iadd_xs_self,
      get_flag_update_xs, get_flag_set_carry, set_carry_xs, hother]
    simp only [if_true, if_false, Bool.false_eq_true, reduceIte]
    rw [xor_ffffffff _ hb]
    omega
  · intro d
    unfold Cpu.isub
    simp only [Function.update_same, hother]
    rw [← Nat.xor_assoc, Nat.xor_self, Nat.zero_xor]

/-- State for the C8 witness: `xs[0] = 5`, `xs[1] = 3`. -/
def cpuW8 : Cpu :=
  { xs := fun i => if i = 0 then 5 else if i = 1 then 3 else 0, fs := zeroRegs,
    flags := 0, interrupt_mask := 255, memmap := 0, system_sp := 0, interrupt_queue := [],
    mem := zeroMem }

/-- Witness for C8 at concrete registers 0 and 1. -/
theorem C8_amended_witness :
    cpuW8.Wf ∧ (0 : Fin 16) ≠ 1
    ∧ ((((cpuW8.set_carry false).iadd 0 1).set_carry true).isub 0 1).xs 0 = cpuW8.xs 0 :=
  ⟨by decide, by decide, (C8_amended cpuW8 0 1 (by decide) (by decide)).1⟩

lemma tb_if01 (b : Bool) (m : Nat) (hm : m ≠ 0) :
    (if b then (1 : Nat) else 0).testBit m = false := by
  cases b <;> simp [tb_one, hm]

lemma xs_ite (P : Prop) [inst : Decidable P] (A B : Cpu) :
    (if P then A else B).xs = if P then A.xs else B.xs := by
  split <;> rfl

lemma bsl_xs_self (c : Cpu) (x0 x1 : Fin 16) :
    (c.bsl x0 x1).xs x0 =
      ((if c.xs x1 < 32 then c.xs x0 <<< c.xs x1 else 0) |||
        (if c.get_flag F_CARRY then 1 else 0)) % 4294967296 := by
  simp [Cpu.bsl, Cpu.set_flag, Cpu.clear_flags, xs_ite]

lemma bsr_xs_self (c : Cpu) (x0 x1 : Fin 16) :
    (c.bsr x0 x1).xs x0 =
      ((if c.xs x1 < 32 then c.xs x0 >>> c.xs x1 else 0) |||
        (if c.get_flag F_CARRY then 1 else 0)) % 4294967296 := by
  simp [Cpu.bsr, Cpu.set_flag, Cpu.clear_flags, xs_ite]

lemma bsl_get_flag_carry (c : Cpu) (x0 x1 : Fin 16) :
    (c.bsl x0 x1).get_flag F_CARRY = (decide (c.xs x1 = 1) && (c.xs x0).testBit 31) := by
  by_cases h1 : c.xs x1 = 1
  · simp only [Cpu.bsl, h1]
    simp only [show ((1 : Nat) < 32) = True from by norm_num, ite_true,
      show ((1 : Nat) = 1) = True from by simp, h1]
    simp only [Cpu.set_flag, Cpu.clear_flags, get_flag_testBit, F_ZERO, F_CARRY,
      F_NEGATIVE, F_PARITY]
    simp only [Nat.testBit_lor, Nat.testBit_land, Nat.testBit_xor, tb_bool_shift,
      tb_ffffffff, tb_one_shift, bne_32_testBit]
    simp [Nat.testBit_shiftLeft, tb_if01]
  · simp only [Cpu.bsl, if_neg h1]
    simp only [Cpu.set_flag, Cpu.clear_flags, get_flag_testBit, F_ZERO, F_CARRY,
      F_NEGATIVE, F_PARITY]
    simp only [Nat.testBit_lor, Nat.testBit_land, Nat.testBit_xor, tb_bool_shift,
      tb_ffffffff, tb_one_shift]
    simp [h1]

lemma bsr_get_flag_carry (c : Cpu) (x0 x1 : Fin 16) :
    (c.bsr x0 x1).get_flag F_CARRY = (decide (c.xs x1 = 1) && (c.xs x0).testBit 0) := by
  by_cases h1 : c.xs x1 = 1
  · simp only [Cpu.bsr, h1]
    simp only [show ((1 : Nat) < 32) = True from by norm_num, ite_true,
      show ((1 : Nat) = 1) = True from by simp, h1]
    simp only [Cpu.set_flag, Cpu.clear_flags, get_flag_testBit, F_ZERO, F_CARRY,
      F_NEGATIVE, F_PARITY]
    simp only [Nat.testBit_lor, Nat.testBit_land, Nat.testBit_xor, tb_bool_shift,
      tb_ffffffff, tb_one_shift, bne_0_testBit]
    simp
  · simp only [Cpu.bsr, if_neg h1]
    simp only [Cpu.set_flag, Cpu.clear_flags, get_flag_testBit, F_ZERO, F_CARRY,
      F_NEGATIVE, F_PARITY]
    simp only [Nat.testBit_lor, Nat.testBit_land, Nat.testBit_xor, tb_bool_shift,
      tb_ffffffff, tb_one_shift]
    simp [h1]

/-- C9 (amended): for both shifts the old CARRY is OR'd into bit 0 of the
64-bit intermediate for every shift amount, so with an amount of 32 or
more the stored result is the old CARRY bit (zero exactly when CARRY was
clear); for amounts below 32 the stored result is the low 32 bits of the
shifted value OR the old CARRY; and CARRY is re-derived only when the
amount is exactly 1 (for `bsl` from the original bit 31 of the
destination — bit 32 of the intermediate — and for `bsr` from the
original bit 0), being left cleared otherwise. -/
theorem C9_amended (c : Cpu) (x0 x1 : Fin 16) :
    (32 ≤ c.xs x1 →
      (c.bsl x0 x1).xs x0 = (if c.get_flag F_CARRY then 1 else 0)
      ∧ (c.bsr x0 x1).xs x0 = (if c.get_flag F_CARRY then 1 else 0))
    ∧ (c.xs x1 < 32 →
      (c.bsl x0 x1).xs x0 =
        ((c.xs x0 <<< c.xs x1) ||| (if c.get_flag F_CARRY then 1 else 0)) % 4294967296
      ∧ (c.bsr x0 x1).xs x0 =
        ((c.xs x0 >>> c.xs x1) ||| (if c.get_flag F_CARRY then 1 else 0)) % 4294967296)
    ∧ (c.bsl x0 x1).get_flag F_CARRY = (decide (c.xs x1 = 1) && (c.xs x0).testBit 31)
    ∧ (c.bsr x0 x1).get_flag F_CARRY = (decide (c.xs x1 = 1) && (c.xs x0).testBit 0) := by
  refine ⟨fun h32 => ⟨?_, ?_⟩, fun h32 => ⟨?_, ?_⟩, bsl_get_flag_carry c x0 x1,
    bsr_get_flag_carry c x0 x1⟩
  · rw [bsl_xs_self, if_neg (by omega)]
    cases h : c.get_flag F_CARRY <;> simp
  · rw [bsr_xs_self, if_neg (by omega)]
    cases h : c.get_flag F_CARRY <;> simp
  · rw [bsl_xs_self, if_pos h32]
  · rw [bsr_xs_self, if_pos h32]

/-- State for the C9 witness: the spec's shift-overflow scenario
`xs[0] = 3`, `xs[1] = 32` with CARRY clear. -/
def cpuW9 : Cpu :=
  { xs := fun i => if i = 0 then 3 else if i = 1 then 32 else 0, fs := zeroRegs,
    flags := 0, interrupt_mask := 255, memmap := 0, system_sp := 0, interrupt_queue := [],
    mem := zeroMem }

/-- Witness for C9 at the spec's shift-overflow scenario. -/
theorem C9_amended_witness :
    32 ≤ cpuW9.xs 1
    ∧ (cpuW9.bsl 0 1).xs 0 = (if cpuW9.get_flag F_CARRY then 1 else 0)
    ∧ (cpuW9.bsl 0 1).get_flag F_CARRY =
        (decide (cpuW9.xs 1 = 1) && (cpuW9.xs 0).testBit 31) :=
  ⟨by decide, ((C9_amended cpuW9 0 1).1 (by decide)).1, (C9_amended cpuW9 0 1).2.2.1⟩

lemma update_flags_int_xs (c : Cpu) (x : Nat) : (c.update_flags_int x).xs = c.xs := rfl

lemma update_flags_int_get_flag_other (c : Cpu) (x : Nat) (f : Nat)
    (hW : c.flags < 4294967296) (h4 : f ≠ F_ZERO) (h8 : f ≠ F_NEGATIVE) (h7 : f ≠ F_PARITY) :
    (c.update_flags_int x).get_flag f = c.get_flag f := by
  simp only [F_ZERO, F_NEGATIVE, F_PARITY] at h4 h8 h7
  simp only [Cpu.update_flags_int, Cpu.set_flag, Cpu.clear_flags, get_flag_testBit, F_ZERO,
    F_NEGATIVE, F_PARITY]
  simp only [Nat.testBit_lor, Nat.testBit_land, Nat.testBit_xor, tb_bool_shift, tb_ffffffff,
    tb_one_shift]
  rcases Nat.lt_or_ge f 32 with hf | hf
  · simp [hf, Ne.symm h4, Ne.symm h8, Ne.symm h7]
  · simp [testBit_ge_32 c.flags f hW hf, show ¬ (f < 32) by omega,
      Ne.symm h4, Ne.symm h8, Ne.symm h7]

/-- C10 (amended): `idiv` and `imod` never produce an MMU or privilege
fault and never touch the interrupt queue; for a nonzero divisor they are
total and update only the destination register and the ZERO, NEGATIVE and
PARITY flags; for a zero divisor the Rust `u32` division aborts the host
process (`Res.crash`), so the operations are not total there. -/
theorem C10_amended (c : Cpu) (x0 x1 : Fin 16) (hWf : c.Wf) :
    (∀ e d, c.idiv x0 x1 ≠ .fault e d)
    ∧ (∀ e d, c.imod x0 x1 ≠ .fault e d)
    ∧ (c.xs x1 = 0 → c.idiv x0 x1 = .crash c ∧ c.imod x0 x1 = .crash c)
    ∧ (c.xs x1 ≠ 0 →
      ∃ d, c.idiv x0 x1 = .ok () d
        ∧ d.xs x0 = c.xs x0 / c.xs x1
        ∧ (∀ j : Fin 16, j ≠ x0 → d.xs j = c.xs j)
        ∧ d.fs = c.fs ∧ d.mem = c.mem ∧ d.memmap = c.memmap
        ∧ d.interrupt_mask = c.interrupt_mask ∧ d.interrupt_queue = c.interrupt_queue
        ∧ d.system_sp = c.system_sp
        ∧ (∀ f : Nat, f ≠ F_ZERO → f ≠ F_NEGATIVE → f ≠ F_PARITY →
            d.get_flag f = c.get_flag f))
    ∧ (c.xs x1 ≠ 0 →
      ∃ d, c.imod x0 x1 = .ok () d
        ∧ d.xs x0 = c.xs x0 % c.xs x1
        ∧ (∀ j : Fin 16, j ≠ x0 → d.xs j = c.xs j)
        ∧ d.interrupt_queue = c.interrupt_queue
        ∧ (∀ f : Nat, f ≠ F_ZERO → f ≠ F_NEGATIVE → f ≠ F_PARITY →
            d.get_flag f = c.get_flag f)) := by
  refine ⟨?_, ?_, ?_, ?_, ?_⟩
  · intro e d h
    unfold Cpu.idiv at h
    by_cases hz : c.xs x1 = 0
    · rw [if_pos hz] at h
      exact Res.noConfusion h
    · rw [if_neg hz] at h
      exact Res.noConfusion h
  · intro e d h
    unfold Cpu.imod at h
    by_cases hz : c.xs x1 = 0
    · rw [if_pos hz] at h
      exact Res.noConfusion h
    · rw [if_neg hz] at h
      exact Res.noConfusion h
  · intro hz
    constructor
    · unfold Cpu.idiv
      rw [if_pos hz]
    · unfold Cpu.imod
      rw [if_pos hz]
  · intro hz
    refine ⟨({ c with xs := Function.update c.xs x0 (c.xs x0 / c.xs x1) }).update_flags_int
        (Function.update c.xs x0 (c.xs x0 / c.xs x1) x0),
      by unfold Cpu.idiv; rw [if_neg hz], ?_, ?_, rfl, rfl, rfl, rfl, rfl, rfl, ?_⟩
    · simp [update_flags_int_xs]
    · intro j hj
      simp [update_flags_int_xs, Function.update_noteq hj]
    · intro f h4 h8 h7
      exact (update_flags_int_get_flag_other _ _ f hWf.2.1 h4 h8 h7).trans
        (get_flag_update_xs c _ f)
  · intro hz
    refine ⟨({ c with xs := Function.update c.xs x0 (c.xs x0 % c.xs x1) }).update_flags_int
        (Function.update c.xs x0 (c.xs x0 % c.xs x1) x0),
      by unfold Cpu.imod; rw [if_neg hz], ?_, ?_, rfl, ?_⟩
    · simp [update_flags_int_xs]
    · intro j hj
      simp [update_flags_int_xs, Function.update_noteq hj]
    · intro f h4 h8 h7
      exact (update_flags_int_get_flag_other _ _ f hWf.2.1 h4 h8 h7).trans
        (get_flag_update_xs c _ f)

/-- State for the C10 witness: `xs[0] = 7`, `xs[1] = 2`. -/
def cpuW10 : Cpu :=
  { xs := fun i => if i = 0 then 7 else if i = 1 then 2 else 0, fs := zeroRegs,
    flags := 0, interrupt_mask := 255, memmap := 0, system_sp := 0, interrupt_queue := [],
    mem := zeroMem }

/-- Witness for C10 with a nonzero divisor. -/
theorem C10_amended_witness :
    cpuW10.Wf ∧ Cpu.idiv cpuW10 0 1 ≠ Res.fault Fault.usedFreePage cpuW10 :=
  ⟨by decide, (C10_amended cpuW10 0 1 (by decide)).1 Fault.usedFreePage cpuW10⟩

lemma hi_nibble (x : Nat) : (x &&& 0xf0000000) >>> 28 = (x >>> 28) &&& 0xf := by
  apply Nat.eq_of_testBit_eq
  intro j
  simp only [Nat.testBit_shiftRight, Nat.testBit_land]
  have hlit : (0xf0000000 : Nat).testBit (28 + j) = (0xf : Nat).testBit j := by
    rcases Nat.lt_or_ge j 4 with h | h
    · interval_cases j <;> decide
    · rw [Nat.testBit_lt_two_pow, Nat.testBit_lt_two_pow]
      · calc (0xf : Nat) < 2 ^ 4 := by norm_num
        _ ≤ 2 ^ j := Nat.pow_le_pow_right (by norm_num) h
      · calc (0xf0000000 : Nat) < 2 ^ 32 := by norm_num
        _ ≤ 2 ^ (28 + j) := Nat.pow_le_pow_right (by norm_num) (by omega)
    
  rw [hlit]

/-- C4 (amended): the translator of the source equals the amended claim
for every state, address, permission set and bus contents: identity when
MEMMAP_ENABLE is clear, table entries read at byte offset equal to the
index, `UsedFreePage` on a zero level-2 base or a clear PRESENT bit,
`InvalidPermissions` when a requested permission bit is missing, with the
permission nibble and the 28-bit physical result both extracted from the
32-bit wrapping sum of the leaf word and the low 16 address bits.  Both
sides are pure functions of the state, so translation mutates nothing. -/
theorem C4_translation (c : Cpu) (addr permissions : Nat) :
    c.check_memory addr permissions = checkMemorySpecAmended c addr permissions := by
  unfold Cpu.check_memory checkMemorySpecAmended Cpu.readTable
  simp only [hi_nibble]

/-! ### Infrastructure for the call/ret round trip (claim C6) -/

lemma neq_sp_pc : (R_SP : Fin 16) ≠ R_PC := by decide

lemma neq_pc_sp : (R_PC : Fin 16) ≠ R_SP := by decide

lemma neq_base_pc : (R_BASE : Fin 16) ≠ R_PC := by decide

lemma neq_pc_base : (R_PC : Fin 16) ≠ R_BASE := by decide

lemma neq_base_sp : (R_BASE : Fin 16) ≠ R_SP := by decide

lemma neq_sp_base : (R_SP : Fin 16) ≠ R_BASE := by decide

lemma check_memory_off (c : Cpu) (addr perms : Nat)
    (h : c.flags &&& (1 <<< F_MEMMAP_ENABLE) = 0) :
    c.check_memory addr perms = .ok addr := by
  unfold Cpu.check_memory
  rw [if_neg (by simp [h])]

lemma exec_off (c : Cpu) (h : c.flags &&& (1 <<< F_MEMMAP_ENABLE) = 0) :
    c.exec = .ok (c.busRead (c.xs R_PC))
      { c with xs := Function.update c.xs R_PC ((c.xs R_PC + 1) % 4294967296) } := by
  unfold Cpu.exec
  rw [check_memory_off c _ _ h]

lemma read_off (c : Cpu) (addr : Nat) (h : c.flags &&& (1 <<< F_MEMMAP_ENABLE) = 0) :
    c.read addr = .ok (c.busRead addr) c := by
  unfold Cpu.read
  rw [check_memory_off c _ _ h]

lemma write_off (c : Cpu) (addr d : Nat) (h : c.flags &&& (1 <<< F_MEMMAP_ENABLE) = 0) :
    c.write addr d = .ok () (c.busWrite addr d) := by
  unfold Cpu.write
  rw [check_memory_off c _ _ h]

lemma busWrite_xs (c : Cpu) (a d : Nat) : (c.busWrite a d).xs = c.xs := rfl

lemma busWrite_fs (c : Cpu) (a d : Nat) : (c.busWrite a d).fs = c.fs := rfl

lemma busWrite_flags (c : Cpu) (a d : Nat) : (c.busWrite a d).flags = c.flags := rfl

lemma busWrite_interrupt_mask (c : Cpu) (a d : Nat) :
    (c.busWrite a d).interrupt_mask = c.interrupt_mask := rfl

lemma busWrite_memmap (c : Cpu) (a d : Nat) : (c.busWrite a d).memmap = c.memmap := rfl

lemma busWrite_system_sp (c : Cpu) (a d : Nat) :
    (c.busWrite a d).system_sp = c.system_sp := rfl

lemma busWrite_interrupt_queue (c : Cpu) (a d : Nat) :
    (c.busWrite a d).interrupt_queue = c.interrupt_queue := rfl

lemma busWrite_mem_apply (c : Cpu) (a d x : Nat) :
    (c.busWrite a d).mem x = if x = a then d else c.mem x := rfl

lemma busRead_mk (xsf fsf : Fin 16 → Nat) (flf imf mmf ssf : Nat) (iqf : List Nat)
    (memf : Nat → Nat) (b : Nat) :
    Cpu.busRead ⟨xsf, fsf, flf, imf, mmf, ssf, iqf, memf⟩ b = memf b % 256 := rfl

lemma busRead_busWrite (c : Cpu) (a d b : Nat) :
    (c.busWrite a d).busRead b = if b = a then d % 256 else c.busRead b := by
  unfold Cpu.busWrite Cpu.busRead
  by_cases hx : b = a <;> simp [hx]

lemma busRead_skip (c : Cpu) (a d b : Nat) (hne : b ≠ a) :
    (c.busWrite a d).busRead b = c.busRead b := by
  rw [busRead_busWrite, if_neg hne]

lemma busRead_hit (c : Cpu) (a d b : Nat) (heq : b = a) :
    (c.busWrite a d).busRead b = d % 256 := by
  rw [busRead_busWrite, if_pos heq]

lemma fetch32_off (c : Cpu) (h : c.flags &&& (1 <<< F_MEMMAP_ENABLE) = 0) :
    c.fetch32 = .ok
      (c.busRead (c.xs R_PC) ||| c.busRead ((c.xs R_PC + 1) % 4294967296) <<< 8 |||
        c.busRead ((c.xs R_PC + 1 + 1) % 4294967296) <<< 16 |||
        c.busRead ((c.xs R_PC + 1 + 1 + 1) % 4294967296) <<< 24)
      { c with xs :=
          Function.update c.xs R_PC ((c.xs R_PC + 1 + 1 + 1 + 1) % 4294967296) } := by
  simp only [Cpu.fetch32, exec_off, h, Res.bind, Function.update_same, Function.update_idem,
    Nat.mod_add_mod]
  rfl

/-- The machine state carried by an operation outcome. -/
def Res.stateOf {α : Type} : Res α → Cpu
  | .ok _ c => c
  | .fault _ c => c
  | .crash c => c

lemma zero_lor (x : Nat) : 0 ||| x = x := by simp

/-- Normal form of `ret` under a disabled memory map: it always succeeds,
the new PC and BP are the little-endian words read at ascending offsets
1..4 and 5..8 from the entry BP, and the new SP is the entry BP plus 8. -/
lemma ret_off (d : Cpu) (h : d.flags &&& (1 <<< F_MEMMAP_ENABLE) = 0) :
    ∃ d2, d.ret = .ok () d2
      ∧ d2.xs R_PC =
          (d.busRead ((d.xs R_BASE + 1) % 4294967296) |||
            d.busRead ((d.xs R_BASE + 2) % 4294967296) <<< 8 |||
            d.busRead ((d.xs R_BASE + 3) % 4294967296) <<< 16 |||
            d.busRead ((d.xs R_BASE + 4) % 4294967296) <<< 24)
      ∧ d2.xs R_BASE =
          (d.busRead ((d.xs R_BASE + 5) % 4294967296) |||
            d.busRead ((d.xs R_BASE + 6) % 4294967296) <<< 8 |||
            d.busRead ((d.xs R_BASE + 7) % 4294967296) <<< 16 |||
            d.busRead ((d.xs R_BASE + 8) % 4294967296) <<< 24)
      ∧ d2.xs R_SP = (d.xs R_BASE + 8) % 4294967296 := by
  refine ⟨Res.stateOf d.ret, ?_, ?_, ?_, ?_⟩
  · simp only [Cpu.ret, read_off, h, Res.bind, Function.update_same, Function.update_idem,
      Function.update_noteq neq_sp_pc, Function.update_noteq neq_base_pc,
      Function.update_noteq neq_base_sp, Function.update_noteq neq_sp_base,
      Function.update_noteq neq_pc_sp, Function.update_noteq neq_pc_base,
      Nat.mod_add_mod, zero_lor, Res.stateOf, busRead_mk, Cpu.busRead]
  · simp only [Cpu.ret, read_off, h, Res.bind, Function.update_same, Function.update_idem,
      Function.update_noteq neq_sp_pc, Function.update_noteq neq_base_pc,
      Function.update_noteq neq_base_sp, Function.update_noteq neq_sp_base,
      Function.update_noteq neq_pc_sp, Function.update_noteq neq_pc_base,
      Nat.mod_add_mod, zero_lor, Res.stateOf, busRead_mk, Cpu.busRead]
  · simp only [Cpu.ret, read_off, h, Res.bind, Function.update_same, Function.update_idem,
      Function.update_noteq neq_sp_pc, Function.update_noteq neq_base_pc,
      Function.update_noteq neq_base_sp, Function.update_noteq neq_sp_base,
      Function.update_noteq neq_pc_sp, Function.update_noteq neq_pc_base,
      Nat.mod_add_mod, zero_lor, Res.stateOf, busRead_mk, Cpu.busRead]
  · simp only [Cpu.ret, read_off, h, Res.bind, Function.update_same, Function.update_idem,
      Function.update_noteq neq_sp_pc, Function.update_noteq neq_base_pc,
      Function.update_noteq neq_base_sp, Function.update_noteq neq_sp_base,
      Function.update_noteq neq_pc_sp, Function.update_noteq neq_pc_base,
      Nat.mod_add_mod, zero_lor, Res.stateOf, busRead_mk, Cpu.busRead]

set_option maxRecDepth 100000 in
set_option maxHeartbeats 1000000 in
/-- Normal form of `call` under a disabled memory map: it always succeeds,
SP and BP both end at the entry SP minus 8 (with 32-bit wrap), and the
stack holds, from low to high addresses, the four bytes of the saved PC
(the entry PC plus 4, the address after the inline target) and then the
four bytes of the saved BP, low bytes first. -/
lemma call_off_pack (c : Cpu) (h : c.flags &&& (1 <<< F_MEMMAP_ENABLE) = 0)
    (hsp : c.xs R_SP < 4294967296) :
    ∃ c1, c.call = .ok () c1
      ∧ c1.flags = c.flags
      ∧ c1.xs R_SP = (c.xs R_SP + 4294967288) % 4294967296
      ∧ c1.xs R_BASE = (c.xs R_SP + 4294967288) % 4294967296
      ∧ (∀ k, k < 4 →
          c1.busRead ((c.xs R_SP + 4294967289 + k) % 4294967296)
            = (((c.xs R_PC + 4) % 4294967296) >>> (8 * k)) % 256
          ∧ c1.busRead ((c.xs R_SP + 4294967293 + k) % 4294967296)
            = (c.xs R_BASE >>> (8 * k)) % 256) := by
  refine ⟨Res.stateOf c.call, ?_, ?_, ?_, ?_, ?_⟩
  · simp only [Cpu.call, fetch32_off, h, write_off, Res.bind, Function.update_same,
      Function.update_idem, Function.update_noteq neq_sp_pc, Function.update_noteq neq_base_pc,
      Function.update_noteq neq_base_sp, Function.update_noteq neq_sp_base,
      Function.update_noteq neq_pc_sp, Function.update_noteq neq_pc_base,
      Cpu.busWrite, Nat.mod_add_mod, Res.stateOf]
  · simp only [Cpu.call, fetch32_off, h, write_off, Res.bind, Function.update_same,
      Function.update_idem, Function.update_noteq neq_sp_pc, Function.update_noteq neq_base_pc,
      Function.update_noteq neq_base_sp, Function.update_noteq neq_sp_base,
      Function.update_noteq neq_pc_sp, Function.update_noteq neq_pc_base,
      Cpu.busWrite, Nat.mod_add_mod, Res.stateOf]
  · simp only [Cpu.call, fetch32_off, h, write_off, Res.bind, Function.update_same,
      Function.update_idem, Function.update_noteq neq_sp_pc, Function.update_noteq neq_base_pc,
      Function.update_noteq neq_base_sp, Function.update_noteq neq_sp_base,
      Function.update_noteq neq_pc_sp, Function.update_noteq neq_pc_base,
      Cpu.busWrite, Nat.mod_add_mod, Res.stateOf]
    omega
  · simp only [Cpu.call, fetch32_off, h, write_off, Res.bind, Function.update_same,
      Function.update_idem, Function.update_noteq neq_sp_pc, Function.update_noteq neq_base_pc,
      Function.update_noteq neq_base_sp, Function.update_noteq neq_sp_base,
      Function.update_noteq neq_pc_sp, Function.update_noteq neq_pc_base,
      Cpu.busWrite, Nat.mod_add_mod, Res.stateOf]
    omega
  · intro k hk
    interval_cases k
    · constructor
      · simp only [Cpu.call, fetch32_off, h, write_off, Res.bind, Function.update_same,
          Function.update_idem, Function.update_noteq neq_sp_pc,
          Function.update_noteq neq_base_pc, Function.update_noteq neq_base_sp,
          Function.update_noteq neq_sp_base, Function.update_noteq neq_pc_sp,
          Function.update_noteq neq_pc_base, Cpu.busWrite, Nat.mod_add_mod, Res.stateOf,
          busRead_mk]
        repeat rw [if_neg (by omega)]
        first
        | rw [if_pos (by omega)]
        | simp only [if_true]
        omega
      · simp only [Cpu.call, fetch32_off, h, write_off, Res.bind, Function.update_same,
          Function.update_idem, Function.update_noteq neq_sp_pc,
          Function.update_noteq neq_base_pc, Function.update_noteq neq_base_sp,
          Function.update_noteq neq_sp_base, Function.update_noteq neq_pc_sp,
          Function.update_noteq neq_pc_base, Cpu.busWrite, Nat.mod_add_mod, Res.stateOf,
          busRead_mk]
        repeat rw [if_neg (by omega)]
        first
        | rw [if_pos (by omega)]
        | simp only [if_true]
        omega
    · constructor
      · simp only [Cpu.call, fetch32_off, h, write_off, Res.bind, Function.update_same,
          Function.update_idem, Function.update_noteq neq_sp_pc,
          Function.update_noteq neq_base_pc, Function.update_noteq neq_base_sp,
          Function.update_noteq neq_sp_base, Function.update_noteq neq_pc_sp,
          Function.update_noteq neq_pc_base, Cpu.busWrite, Nat.mod_add_mod, Res.stateOf,
          busRead_mk]
        repeat rw [if_neg (by omega)]
        first
        | rw [if_pos (by omega)]
        | simp only [if_true]
        omega
      · simp only [Cpu.call, fetch32_off, h, write_off, Res.bind, Function.update_same,
          Function.update_idem, Function.update_noteq neq_sp_pc,
          Function.update_noteq neq_base_pc, Function.update_noteq neq_base_sp,
          Function.update_noteq neq_sp_base, Function.update_noteq neq_pc_sp,
          Function.update_noteq neq_pc_base, Cpu.busWrite, Nat.mod_add_mod, Res.stateOf,
          busRead_mk]
        repeat rw [if_neg (by omega)]
        first
        | rw [if_pos (by omega)]
        | simp only [if_true]
        omega
    · constructor
      · simp only [Cpu.call, fetch32_off, h, write_off, Res.bind, Function.update_same,
          Function.update_idem, Function.update_noteq neq_sp_pc,
          Function.update_noteq neq_base_pc, Function.update_noteq neq_base_sp,
          Function.update_noteq neq_sp_base, Function.update_noteq neq_pc_sp,
          Function.update_noteq neq_pc_base, Cpu.busWrite, Nat.mod_add_mod, Res.stateOf,
          busRead_mk]
        repeat rw [if_neg (by omega)]
        first
        | rw [if_pos (by omega)]
        | simp only [if_true]
        omega
      · simp only [Cpu.call, fetch32_off, h, write_off, Res.bind, Function.update_same,
          Function.update_idem, Function.update_noteq neq_sp_pc,
          Function.update_noteq neq_base_pc, Function.update_noteq neq_base_sp,
          Function.update_noteq neq_sp_base, Function.update_noteq neq_pc_sp,
          Function.update_noteq neq_pc_base, Cpu.busWrite, Nat.mod_add_mod, Res.stateOf,
          busRead_mk]
        repeat rw [if_neg (by omega)]
        first
        | rw [if_pos (by omega)]
        | simp only [if_true]
        omega
    · constructor
      · simp only [Cpu.call, fetch32_off, h, write_off, Res.bind, Function.update_same,
          Function.update_idem, Function.update_noteq neq_sp_pc,
          Function.update_noteq neq_base_pc, Function.update_noteq neq_base_sp,
          Function.update_noteq neq_sp_base, Function.update_noteq neq_pc_sp,
          Function.update_noteq neq_pc_base, Cpu.busWrite, Nat.mod_add_mod, Res.stateOf,
          busRead_mk]
        repeat rw [if_neg (by omega)]
        first
        | rw [if_pos (by omega)]
        | simp only [if_true]
        omega
      · simp only [Cpu.call, fetch32_off, h, write_off, Res.bind, Function.update_same,
          Function.update_idem, Function.update_noteq neq_sp_pc,
          Function.update_noteq neq_base_pc, Function.update_noteq neq_base_sp,
          Function.update_noteq neq_sp_base, Function.update_noteq neq_pc_sp,
          Function.update_noteq neq_pc_base, Cpu.busWrite, Nat.mod_add_mod, Res.stateOf,
          busRead_mk]
        repeat rw [if_neg (by omega)]
        first
        | rw [if_pos (by omega)]
        | simp only [if_true]
        omega

set_option maxRecDepth 100000 in
/-- C6: with the memory map disabled, a `call` whose opcode byte sits at
address `call_site` (so the PC handed to `call` is `call_site + 1`)
followed immediately by `ret` sets the PC to `call_site + 1 + 4`, restores
BP and SP exactly to their pre-call values, and in between the stack
holds, from low to high addresses, the four little-endian bytes of the
saved PC `call_site + 5` and then the four bytes of the saved BP, with SP
one below the lowest pushed byte and BP equal to the post-push SP. -/
theorem C6_call_ret (c : Cpu) (call_site : Nat) (hWf : c.Wf)
    (hmm : c.get_flag F_MEMMAP_ENABLE = false)
    (hpc : c.xs R_PC = (call_site + 1) % 4294967296) :
    ∃ c1 c2, c.call = .ok () c1 ∧ c1.ret = .ok () c2
      ∧ c1.xs R_SP = (c.xs R_SP + 4294967288) % 4294967296
      ∧ c1.xs R_BASE = c1.xs R_SP
      ∧ (∀ k, k < 4 →
          c1.busRead ((c.xs R_SP + 4294967289 + k) % 4294967296)
            = (((call_site + 5) % 4294967296) >>> (8 * k)) % 256
          ∧ c1.busRead ((c.xs R_SP + 4294967293 + k) % 4294967296)
            = (c.xs R_BASE >>> (8 * k)) % 256)
      ∧ c2.xs R_PC = (call_site + 5) % 4294967296
      ∧ c2.xs R_BASE = c.xs R_BASE
      ∧ c2.xs R_SP = c.xs R_SP := by
  have h : c.flags &&& (1 <<< F_MEMMAP_ENABLE) = 0 := by
    unfold Cpu.get_flag at hmm
    simpa using hmm
  obtain ⟨c1, hcall, hflags, hsp1, hbp1, hbytes⟩ := call_off_pack c h (hWf.1 R_SP)
  have h1 : c1.flags &&& (1 <<< F_MEMMAP_ENABLE) = 0 := by rw [hflags]; exact h
  obtain ⟨c2, hret, hpc2, hbp2, hsp2⟩ := ret_off c1 h1
  have hpc5 : (c.xs R_PC + 4) % 4294967296 = (call_site + 5) % 4294967296 := by
    rw [hpc]; omega
  have e0 := (hbytes 0 (by omega)).1
  have e1 := (hbytes 1 (by omega)).1
  have e2 := (hbytes 2 (by omega)).1
  have e3 := (hbytes 3 (by omega)).1
  have f0 := (hbytes 0 (by omega)).2
  have f1 := (hbytes 1 (by omega)).2
  have f2 := (hbytes 2 (by omega)).2
  have f3 := (hbytes 3 (by omega)).2
  rw [hpc5] at e0 e1 e2 e3
  norm_num at e0 e1 e2 e3 f0 f1 f2 f3
  refine ⟨c1, c2, hcall, hret, hsp1, ?_, ?_, ?_, ?_, ?_⟩
  · rw [hbp1, hsp1]
  · intro k hk
    obtain ⟨hP, hB⟩ := hbytes k hk
    exact ⟨by rw [hP, hpc5], hB⟩
  · have a1 : ((c.xs R_SP + 4294967288) % 4294967296 + 1) % 4294967296
        = (c.xs R_SP + 4294967289) % 4294967296 := by omega
    have a2 : ((c.xs R_SP + 4294967288) % 4294967296 + 2) % 4294967296
        = (c.xs R_SP + 4294967290) % 4294967296 := by omega
    have a3 : ((c.xs R_SP + 4294967288) % 4294967296 + 3) % 4294967296
        = (c.xs R_SP + 4294967291) % 4294967296 := by omega
    have a4 : ((c.xs R_SP + 4294967288) % 4294967296 + 4) % 4294967296
        = (c.xs R_SP + 4294967292) % 4294967296 := by omega
    rw [hpc2, hbp1, a1, a2, a3, a4, e0, e1, e2, e3]
    have hb : (call_site + 5) % 256 = ((call_site + 5) % 4294967296) % 256 := by omega
    rw [hb]
    exact recompose32 _ (Nat.mod_lt _ (by norm_num))
  · have a5 : ((c.xs R_SP + 4294967288) % 4294967296 + 5) % 4294967296
        = (c.xs R_SP + 4294967293) % 4294967296 := by omega
    have a6 : ((c.xs R_SP + 4294967288) % 4294967296 + 6) % 4294967296
        = (c.xs R_SP + 4294967294) % 4294967296 := by omega
    have a7 : ((c.xs R_SP + 4294967288) % 4294967296 + 7) % 4294967296
        = (c.xs R_SP + 4294967295) % 4294967296 := by omega
    rw [hbp2, hbp1, a5, a6, a7, Nat.mod_add_mod, f0, f1, f2, f3]
    exact recompose32 _ (hWf.1 R_BASE)
  · have hsp := hWf.1 R_SP
    rw [hsp2, hbp1]
    omega

/-- State for the C6 witness: the `call` opcode byte sits at address
0x1234, so the PC handed to `call` is 0x1235; BP is 0xbfff and SP 0xbfc8
as in the repository's own `cpu_call_ret` test, all flags clear (memory
map disabled), memory all zero. -/
def cpuC6 : Cpu :=
  { xs := Function.update (Function.update (Function.update zeroRegs R_PC 4661) R_BASE 49151)
      R_SP 49096,
    fs := zeroRegs, flags := 0, interrupt_mask := 255, memmap := 0, system_sp := 0,
    interrupt_queue := [], mem := zeroMem }

/-- Concrete call/ret round trip for C6 at call site 0x1234. -/
theorem C6_call_ret_witness :
    ∃ c1 c2, cpuC6.call = .ok () c1 ∧ c1.ret = .ok () c2
      ∧ c1.xs R_SP = (cpuC6.xs R_SP + 4294967288) % 4294967296
      ∧ c1.xs R_BASE = c1.xs R_SP
      ∧ (∀ k, k < 4 →
          c1.busRead ((cpuC6.xs R_SP + 4294967289 + k) % 4294967296)
            = (((4660 + 5) % 4294967296) >>> (8 * k)) % 256
          ∧ c1.busRead ((cpuC6.xs R_SP + 4294967293 + k) % 4294967296)
            = (cpuC6.xs R_BASE >>> (8 * k)) % 256)
      ∧ c2.xs R_PC = (4660 + 5) % 4294967296
      ∧ c2.xs R_BASE = cpuC6.xs R_BASE
      ∧ c2.xs R_SP = cpuC6.xs R_SP :=
  C6_call_ret cpuC6 4660 (by decide) (by decide) (by decide)
